import Mathlib

/-!
Verification development for the arXivisual generation pipeline.

This file gives a shallow embedding of the core orchestration and validation
logic of the repository:

* `backend/agents/pipeline.py` — the per-candidate retry loop
  (`generate_single_visualization`), the paper-level fan-out
  (`generate_visualizations`), and the narration metadata extraction
  (`_extract_voiceover_metadata`);
* `backend/agents/voiceover_script_validator.py` — the narration quality
  validator (`VoiceoverScriptValidator.validate` and its heuristic scorers);
* `backend/agents/manim_generator.py` — `ManimGenerator._extract_narration_lines`.

External collaborators (LLM planner, LLM code generator, the code validator,
spatial validator and render tester, whose class sources live outside the
embedded core) are modelled as injected oracles, mirroring how
`generate_single_visualization` receives them as optional parameters; their
output records carry exactly the fields the pipeline reads.  Python floats
are modelled as exact rationals (`ℚ`); Python strings as `String`/`List Char`;
a raised exception as the `Except.error` constructor.
-/

namespace ArxiVisual

/-! ### Character-level utilities

Python's `\s` class (ASCII range), `str.strip`, `str.lower`,
`str.startswith`, and substring containment (`in`). -/

/-- Characters matched by Python's regex `\s` (ASCII range): space, tab,
newline, carriage return, vertical tab, form feed. -/
def isPySpace (c : Char) : Bool :=
  c = ' ' || c = '\t' || c = '\n' || c = '\r' || c = Char.ofNat 11 || c = Char.ofNat 12

/-- ASCII letter test, mirroring the regex class `[a-zA-Z]`. -/
def isAsciiLetter (c : Char) : Bool :=
  ('a' ≤ c && c ≤ 'z') || ('A' ≤ c && c ≤ 'Z')

/-- ASCII digit test, mirroring the regex class `[0-9]`. -/
def isAsciiDigit (c : Char) : Bool :=
  '0' ≤ c && c ≤ '9'

/-- The regex class `[a-zA-Z0-9_-]` used by the tokenizer of
`VoiceoverScriptValidator`. -/
def isWordChar (c : Char) : Bool :=
  isAsciiLetter c || isAsciiDigit c || c = '_' || c = '-'

/-- The regex class `[A-Za-z0-9']` used by `VoiceoverScriptValidator._word_count`. -/
def isCountChar (c : Char) : Bool :=
  isAsciiLetter c || isAsciiDigit c || c = Char.ofNat 39

/-- ASCII lowercasing of one character, as Python's `str.lower` acts on the
ASCII inputs this code path sees. -/
def toLowerChar (c : Char) : Char :=
  if 'A' ≤ c && c ≤ 'Z' then Char.ofNat (c.toNat + 32) else c

/-- Lowercase every character of a character list. -/
def toLowerList (s : List Char) : List Char := s.map toLowerChar

/-- Python `str.strip`: remove leading and trailing whitespace. -/
def pyStrip (s : List Char) : List Char :=
  ((s.dropWhile isPySpace).reverse.dropWhile isPySpace).reverse

/-- Python `str.strip` at the `String` level. -/
def pyStripStr (s : String) : String := String.mk (pyStrip s.toList)

/-- Python `str.lower` at the `String` level. -/
def toLowerStr (s : String) : String := String.mk (toLowerList s.toList)

/-- Prefix test on character lists (Python `str.startswith`). -/
def startsWithChars : List Char → List Char → Bool
  | [], _ => true
  | _ :: _, [] => false
  | n :: ns, c :: cs => n = c && startsWithChars ns cs

/-- Substring containment on character lists (Python `needle in hay`). -/
def containsChars (needle : List Char) : List Char → Bool
  | [] => startsWithChars needle []
  | c :: cs => startsWithChars needle (c :: cs) || containsChars needle cs

/-- Substring containment at the `String` level. -/
def containsStr (hay needle : String) : Bool :=
  containsChars needle.toList hay.toList

/-- Python `str.startswith` with a tuple of alternatives. -/
def startsWithAny (s : String) (alts : List String) : Bool :=
  alts.any fun p => startsWithChars p.toList s.toList

/-! ### Deterministic matchers for the narration-block regexes

The pipeline and validators recognize narration blocks with two fixed
patterns (`pipeline.py::_extract_voiceover_metadata`,
`manim_generator.py::_extract_narration_lines`,
`voiceover_script_validator.py::validate`):

* keyword form: `with\s+self\.voiceover\s*\(\s*text\s*=\s*"([^"]+)"\s*\)\s+as\s+tracker\s*:`
* positional form: `with\s+self\.voiceover\s*\(\s*"([^"]+)"\s*\)\s+as\s+tracker\s*:`

Both patterns are chains of fixed literals separated by whitespace classes,
with a single greedy `[^"]+` capture that cannot cross a quote, so regex
matching is deterministic (backtracking cannot change the outcome) and is
embedded as a straight-line matcher returning the capture and the remainder. -/

/-- Match a literal character sequence, returning the remainder. -/
def matchLit : List Char → List Char → Option (List Char)
  | [], s => some s
  | _ :: _, [] => none
  | l :: ls, c :: cs => if c = l then matchLit ls cs else none

/-- Regex `\s*`: drop any run of whitespace. -/
def dropSpacesL (s : List Char) : List Char := s.dropWhile isPySpace

/-- Regex `\s+`: require at least one whitespace character, then drop the run. -/
def matchSpaces1 : List Char → Option (List Char)
  | [] => none
  | c :: cs => if isPySpace c then some (dropSpacesL cs) else none

/-- Capture helper for `([^"]*)"`: the characters before the next quote,
consuming the closing quote; fails if no quote follows. -/
def takeUntilQuote : List Char → Option (List Char × List Char)
  | [] => none
  | c :: cs =>
    if c = '"' then some ([], cs)
    else (takeUntilQuote cs).map (fun p => (c :: p.1, p.2))

/-- Regex `([^"]+)"`: nonempty capture up to and including the closing quote. -/
def takeCapture (s : List Char) : Option (List Char × List Char) :=
  (takeUntilQuote s).bind fun p => if p.1 = [] then none else some p

/-- The fixed opening of the keyword-form pattern, up to and including the
opening quote of the capture: `with\s+self\.voiceover\s*\(\s*text\s*=\s*"`. -/
def matchKwOpen (s : List Char) : Option (List Char) :=
  (matchLit ['w', 'i', 't', 'h'] s).bind fun s1 =>
  (matchSpaces1 s1).bind fun s2 =>
  (matchLit ['s', 'e', 'l', 'f', '.', 'v', 'o', 'i', 'c', 'e', 'o', 'v', 'e', 'r'] s2).bind fun s3 =>
  (matchLit ['('] (dropSpacesL s3)).bind fun s4 =>
  (matchLit ['t', 'e', 'x', 't'] (dropSpacesL s4)).bind fun s5 =>
  (matchLit ['='] (dropSpacesL s5)).bind fun s6 =>
  matchLit ['"'] (dropSpacesL s6)

/-- The fixed opening of the positional-form pattern:
`with\s+self\.voiceover\s*\(\s*"`. -/
def matchPosOpen (s : List Char) : Option (List Char) :=
  (matchLit ['w', 'i', 't', 'h'] s).bind fun s1 =>
  (matchSpaces1 s1).bind fun s2 =>
  (matchLit ['s', 'e', 'l', 'f', '.', 'v', 'o', 'i', 'c', 'e', 'o', 'v', 'e', 'r'] s2).bind fun s3 =>
  (matchLit ['('] (dropSpacesL s3)).bind fun s4 =>
  matchLit ['"'] (dropSpacesL s4)

/-- The shared closing of both patterns, after the capture's closing quote:
`\s*\)\s+as\s+tracker\s*:`. -/
def matchBlockClose (s : List Char) : Option (List Char) :=
  (matchLit [')'] (dropSpacesL s)).bind fun s1 =>
  (matchSpaces1 s1).bind fun s2 =>
  (matchLit ['a', 's'] s2).bind fun s3 =>
  (matchSpaces1 s3).bind fun s4 =>
  (matchLit ['t', 'r', 'a', 'c', 'k', 'e', 'r'] s4).bind fun s5 =>
  matchLit [':'] (dropSpacesL s5)

/-- Full keyword-form pattern: returns the capture and the remainder after
the match. -/
def matchKw (s : List Char) : Option (List Char × List Char) :=
  (matchKwOpen s).bind fun r =>
  (takeCapture r).bind fun p =>
  (matchBlockClose p.2).map fun r3 => (p.1, r3)

/-- Full positional-form pattern. -/
def matchPos (s : List Char) : Option (List Char × List Char) :=
  (matchPosOpen s).bind fun r =>
  (takeCapture r).bind fun p =>
  (matchBlockClose p.2).map fun r3 => (p.1, r3)

/-- Either pattern, keyword form preferred — used only to describe the ground
truth "narration blocks present in the source", for the round-trip claim. -/
def matchEither (s : List Char) : Option (List Char × List Char) :=
  match matchKw s with
  | some p => some p
  | none => matchPos s

/-- `re.findall`-style scan: at each position try the matcher; on success
emit the capture and resume after the match, otherwise advance one
character.  The fuel argument (instantiated with the string length, which
the match-consumption lemmas prove sufficient) makes the recursion
structural. -/
def scanFuel (m : List Char → Option (List Char × List Char)) :
    Nat → List Char → List (List Char)
  | 0, _ => []
  | _ + 1, [] => []
  | f + 1, c :: cs =>
    match m (c :: cs) with
    | some (cap, rest) => cap :: scanFuel m f rest
    | none => scanFuel m f cs

/-- All keyword-form captures in source order. -/
def scanKw (s : List Char) : List (List Char) := scanFuel matchKw s.length s

/-- All positional-form captures in source order. -/
def scanPos (s : List Char) : List (List Char) := scanFuel matchPos s.length s

/-- Captures of every narration block of either recognized form, in source
order: the ground truth of the round-trip claim. -/
def scanEither (s : List Char) : List (List Char) := scanFuel matchEither s.length s

/-! ### Narration metadata extraction (`pipeline.py::_extract_voiceover_metadata`
and `manim_generator.py::_extract_narration_lines`) -/

/-- Python `str.splitlines` restricted to the line breaks occurring here
(`\n`, `\r`, `\r\n`), with fuel for structural recursion. -/
def splitLinesFuel : Nat → List Char → List (List Char)
  | 0, _ => []
  | _ + 1, [] => []
  | f + 1, s =>
    let seg := s.takeWhile fun c => !(c = '\n' || c = '\r')
    let rest := s.drop seg.length
    match rest with
    | '\r' :: '\n' :: r => seg :: splitLinesFuel f r
    | _ :: r => seg :: splitLinesFuel f r
    | [] => [seg]

/-- Python `str.splitlines`. -/
def splitLinesPy (s : List Char) : List (List Char) := splitLinesFuel s.length s

/-- `re.match(r"#\s*Beat\s*\d+", stripped, re.IGNORECASE)`: a hash, optional
whitespace, `beat` case-insensitively, optional whitespace, one digit. -/
def beatMatch (s : List Char) : Bool :=
  match (matchLit ['#'] s).bind fun s1 =>
        (matchLit ['b', 'e', 'a', 't'] (toLowerList (dropSpacesL s1))).bind fun s2 =>
        some (dropSpacesL s2) with
  | some (c :: _) => isAsciiDigit c
  | _ => false

/-- Beat labels of `_extract_voiceover_metadata` / `_extract_beat_labels`:
stripped lines matching the beat pattern, in order. -/
def extractBeats (code : List Char) : List (List Char) :=
  ((splitLinesPy code).map pyStrip).filter beatMatch

/-- Narration captures before stripping: keyword-form matches, falling back
to the positional form only when there are no keyword-form matches
(`pipeline.py` lines 91–99, identically `manim_generator.py` lines 169–181). -/
def rawNarrations (code : List Char) : List (List Char) :=
  let narrations := scanKw code
  if narrations.isEmpty then scanPos code else narrations

/-- Narration lines of `_extract_voiceover_metadata`: raw captures stripped,
empty ones discarded (`[n.strip() for n in narrations if n.strip()]`). -/
def extractNarrations (code : List Char) : List (List Char) :=
  ((rawNarrations code).map pyStrip).filter (fun n => !n.isEmpty)

/-- `_extract_voiceover_metadata` at the `String` level: narration lines and
beat labels. -/
def extractVoiceoverMetadata (code : String) : List String × List String :=
  ((extractNarrations code.toList).map String.mk,
   (extractBeats code.toList).map String.mk)

/-- `ManimGenerator._extract_narration_lines` at the `String` level (same
pattern pair and strip-filter as `_extract_voiceover_metadata`). -/
def extractNarrationLines (code : String) : List String :=
  (extractNarrations code.toList).map String.mk

/-- Literal text values of every narration block present in a source string,
either form, in source order — the spec's ground truth for the round-trip
property. -/
def voiceoverBlockTexts (code : String) : List String :=
  (scanEither code.toList).map String.mk

/-! Renderers producing a source string from a list of narration texts, used
to state the round-trip property. -/

/-- One keyword-form narration block holding the given text. -/
def kwBlockChars (t : List Char) : List Char :=
  "with self.voiceover(text=".toList ++ '"' :: t ++ '"' :: ") as tracker:".toList ++ ['\n']

/-- One positional-form narration block holding the given text. -/
def posBlockChars (t : List Char) : List Char :=
  "with self.voiceover(".toList ++ '"' :: t ++ '"' :: ") as tracker:".toList ++ ['\n']

/-- Source consisting of keyword-form narration blocks for the given texts. -/
def renderKwChars (ts : List (List Char)) : List Char :=
  (ts.map kwBlockChars).flatten

/-- Source consisting of positional-form narration blocks for the given texts. -/
def renderPosChars (ts : List (List Char)) : List Char :=
  (ts.map posBlockChars).flatten

/-- `String`-level keyword-form renderer. -/
def renderKw (ts : List String) : String :=
  String.mk (renderKwChars (ts.map String.toList))

/-- `String`-level positional-form renderer. -/
def renderPos (ts : List String) : String :=
  String.mk (renderPosChars (ts.map String.toList))

/-- A text is extraction-safe when it is nonempty, contains no quote
(otherwise it cannot sit inside a `"[^"]+"` capture), and is already
stripped (extraction strips captures). -/
def goodText (t : String) : Prop :=
  t.toList ≠ [] ∧ '"' ∉ t.toList ∧ pyStrip t.toList = t.toList

instance (t : String) : Decidable (goodText t) := by
  unfold goodText
  infer_instance

/-! ### VoiceoverScriptValidator (`voiceover_script_validator.py`)

The validator's data: its constructor parameters, the candidate fields it
reads, and `GeneratedCode` (from `models.generation`, whose fields are those
the pipeline and validator construct and read). -/

/-- Candidate produced by the section analyzer; the fields read by the
pipeline and the narration validator. -/
structure VisualizationCandidate where
  section_id : String
  concept_name : String
  concept_description : String
  context : String
  visualization_type : String
  priority : Int
deriving DecidableEq

/-- Generated code record: source text plus narration metadata, as
constructed by the generator and mutated by the pipeline's retry loop. -/
structure GeneratedCode where
  code : String
  narration_lines : List String := []
  narration_beats : List String := []
  voiceover_enabled : Bool := false
deriving DecidableEq

/-- Validator-reported issues.  The Python code reports strings; each
constructor stands for one `issues.append(...)` site and carries the data
interpolated into the message. -/
inductive VIssue
  | missingVoiceoverScene
  | missingSpeechService
  | noNarrationBlocks
  | bannedStart (idx : Nat)
  | alignmentBelow (score threshold : ℚ)
  | educationalBelow (score threshold : ℚ)
deriving DecidableEq

/-- `models.voiceover.VoiceoverValidationOutput`: the record the validator
returns and the pipeline consumes. -/
structure VoiceoverValidationOutput where
  is_valid : Bool
  issues_found : List VIssue
  score_alignment : ℚ
  score_educational : ℚ
  needs_regeneration : Bool
deriving DecidableEq

/-- Constructor parameters of `VoiceoverScriptValidator`, with the source's
defaults (`max_words` is accepted but never read by `validate`). -/
structure ValidatorConfig where
  strict : Bool := true
  minWords : Nat := 6
  maxWords : Nat := 40
  alignmentThreshold : ℚ := 7/10
  educationalThreshold : ℚ := 7/10
  useLlmJudge : Bool := true
deriving DecidableEq

/-- `VoiceoverScriptValidator.BANNED_STARTS`. -/
def BANNED_STARTS : List String :=
  ["display", "show", "fade", "animate", "create", "draw", "move", "write"]

/-- `VoiceoverScriptValidator.STOPWORDS` (the Python set literal repeats
"into"; as a set it is this collection). -/
def STOPWORDS : List String :=
  ["the", "and", "that", "with", "from", "this", "these", "those", "into", "onto",
   "their", "about", "each", "for", "are", "its", "while", "where", "when", "then",
   "using", "through", "across", "between", "before", "after", "over", "under"]

/-- The fixed domain-anchor vocabulary of `_rule_alignment_score`. -/
def anchorTerms : Finset String :=
  {"query", "key", "value", "attention", "softmax", "weight",
   "score", "representation", "token", "context"}

/-- `re.findall(r"[a-zA-Z][a-zA-Z0-9_-]{2,}", s)`: maximal runs of word
characters of length at least three starting with a letter, with fuel for
structural recursion. -/
def tokenizeFuel : Nat → List Char → List (List Char)
  | 0, _ => []
  | _ + 1, [] => []
  | f + 1, c :: cs =>
    if isAsciiLetter c then
      let run := cs.takeWhile isWordChar
      if 2 ≤ run.length then (c :: run) :: tokenizeFuel f (cs.drop run.length)
      else tokenizeFuel f cs
    else tokenizeFuel f cs

/-- Word tokens of a string (already lowercased by the callers). -/
def tokenizeChars (s : List Char) : List (List Char) := tokenizeFuel s.length s

/-- `VoiceoverScriptValidator._word_count`:
`len(re.findall(r"[A-Za-z0-9']+", text))`, counting maximal nonempty runs. -/
def wordCountFuel : Nat → List Char → Nat
  | 0, _ => 0
  | _ + 1, [] => 0
  | f + 1, c :: cs =>
    if isCountChar c then
      let run := cs.takeWhile isCountChar
      1 + wordCountFuel f (cs.drop run.length)
    else wordCountFuel f cs

/-- Word count of a narration line. -/
def wordCount (s : String) : Nat := wordCountFuel s.toList.length s.toList

/-- `VoiceoverScriptValidator._normalize_token`. -/
def normalizeToken (t : String) : String :=
  let l := t.toList
  if startsWithChars ['s', 'e', 'i'] l.reverse ∧ 4 < l.length then
    String.mk (l.take (l.length - 3) ++ ['y'])
  else if startsWithChars ['s'] l.reverse ∧ 3 < l.length then
    String.mk (l.take (l.length - 1))
  else t

/-- Content-term set of a lowered-then-tokenized text: stopwords removed,
then tokens normalized — `{normalize(t) for t in terms if t not in STOPWORDS}`. -/
def termsOfText (s : String) : Finset String :=
  (((tokenizeChars (toLowerList s.toList)).map String.mk).toFinset.filter
    fun t => t ∉ STOPWORDS).image normalizeToken

/-- `VoiceoverScriptValidator._build_reference_terms`: terms of
`f"{concept_name} {concept_description} {context}"`. -/
def buildReferenceTerms (cand : VisualizationCandidate) : Finset String :=
  termsOfText (cand.concept_name ++ " " ++ cand.concept_description ++ " " ++ cand.context)

/-- Clamp to `[0, 1]` — Python's `max(0.0, min(1.0, x))`. -/
def clampQ (x : ℚ) : ℚ := max 0 (min 1 x)

/-- Core of `_rule_alignment_score` as a function of the line's term set and
the reference term set. -/
def scoreOfTermSets (terms refTerms : Finset String) : ℚ :=
  if terms = ∅ then 0
  else if refTerms = ∅ then 1/2
  else
    let overlap : ℕ := (terms ∩ refTerms).card
    let overlapRatio : ℚ := (overlap : ℚ) / ((max 1 (min 8 terms.card) : ℕ) : ℚ)
    let anchorHits : ℕ := (terms ∩ anchorTerms).card
    clampQ (9/20 + (1/5) * ((min 3 anchorHits : ℕ) : ℚ) + (1/4) * overlapRatio)

/-- `VoiceoverScriptValidator._rule_alignment_score`. -/
def ruleAlignmentScore (line : String) (refTerms : Finset String) : ℚ :=
  scoreOfTermSets (termsOfText line) refTerms

/-- `VoiceoverScriptValidator._rule_educational_score`. -/
def ruleEducationalScore (minWords : Nat) (line : String) : ℚ :=
  let low := toLowerStr line
  let p1 : ℚ := if startsWithAny low BANNED_STARTS then 9/20 else 0
  let p2 : ℚ := if containsStr low "screen" || containsStr low "on screen" then 1/5 else 0
  let p3 : ℚ := if containsStr low "watch" || containsStr low "now we" then 3/20 else 0
  let p4 : ℚ := if wordCount line < minWords then 1/5 else 0
  clampQ (19/20 - (p1 + p2 + p3 + p4))

/-- Banned-start issues of the per-line loop of `validate` (1-based indices;
blank-stripped lines are skipped but still consume an index). -/
def bannedIssues (narrations : List String) : List VIssue :=
  narrations.enum.filterMap fun p =>
    let stripped := pyStripStr p.2
    if stripped.toList = [] then none
    else if startsWithAny (toLowerStr stripped) BANNED_STARTS then
      some (.bannedStart (p.1 + 1))
    else none

/-- Per-line alignment rule scores collected by `validate` (blank lines
skipped). -/
def alignScoresOf (narrations : List String) (refTerms : Finset String) : List ℚ :=
  narrations.filterMap fun line =>
    let stripped := pyStripStr line
    if stripped.toList = [] then none else some (ruleAlignmentScore stripped refTerms)

/-- Per-line educational rule scores collected by `validate`. -/
def eduScoresOf (minWords : Nat) (narrations : List String) : List ℚ :=
  narrations.filterMap fun line =>
    let stripped := pyStripStr line
    if stripped.toList = [] then none else some (ruleEducationalScore minWords stripped)

/-- Mean of a score list, `0.0` when empty. -/
def meanScore (l : List ℚ) : ℚ :=
  if l = [] then 0 else l.sum / (l.length : ℚ)

/-- Aggregate heuristic alignment score of a `GeneratedCode` against a
candidate. -/
def ruleAlignmentAggregate (gc : GeneratedCode) (cand : VisualizationCandidate) : ℚ :=
  meanScore (alignScoresOf gc.narration_lines (buildReferenceTerms cand))

/-- Aggregate heuristic educational score of a `GeneratedCode`. -/
def ruleEducationalAggregate (v : ValidatorConfig) (gc : GeneratedCode) : ℚ :=
  meanScore (eduScoresOf v.minWords gc.narration_lines)

/-- The structural (hard-fail) issues of `validate`: scene base class,
speech service, and at least one narration block of either form. -/
def structuralVIssues (code : String) : List VIssue :=
  (if containsStr code "VoiceoverScene" then [] else [.missingVoiceoverScene]) ++
  (if containsStr code "set_speech_service(" then [] else [.missingSpeechService]) ++
  (if scanKw code.toList = [] ∧ scanPos code.toList = [] then [.noNarrationBlocks] else [])

/-- The output `validate` produces once the final (post-judge) alignment and
educational scores are fixed: threshold comparison on the raw scores,
reported scores clamped to `[0, 1]`. -/
def validateWithScores (v : ValidatorConfig) (gc : GeneratedCode)
    (finalA finalE : ℚ) : VoiceoverValidationOutput :=
  let issues :=
    structuralVIssues gc.code ++ bannedIssues gc.narration_lines ++
    (if finalA < v.alignmentThreshold then [.alignmentBelow finalA v.alignmentThreshold] else []) ++
    (if finalE < v.educationalThreshold then [.educationalBelow finalE v.educationalThreshold] else [])
  { is_valid := issues.isEmpty
    issues_found := issues
    score_alignment := clampQ finalA
    score_educational := clampQ finalE
    needs_regeneration := v.strict && !issues.isEmpty }

/-- `VoiceoverScriptValidator.validate`.  The LLM judge call is external and
nondeterministic; its outcome is the `judge` oracle argument: `none` models
"judge unavailable or returned malformed output" (`_llm_judge` returning
`(None, None, issue)`), `some (a, e)` models valid judge scores.  The judge
is consulted only when `use_llm_judge` is set and the narration list is
nonempty; its issue string is discarded (`_ = llm_issue`). -/
def validateV (v : ValidatorConfig) (gc : GeneratedCode)
    (cand : VisualizationCandidate) (judge : Option (ℚ × ℚ)) : VoiceoverValidationOutput :=
  let narrations := gc.narration_lines
  let refTerms := buildReferenceTerms cand
  let ruleAlignment := meanScore (alignScoresOf narrations refTerms)
  let ruleEducational := meanScore (eduScoresOf v.minWords narrations)
  let llm : Option (ℚ × ℚ) :=
    if v.useLlmJudge && !narrations.isEmpty then judge else none
  let finalAlignment := match llm with | some p => p.1 | none => ruleAlignment
  let finalEducational := match llm with | some p => p.2 | none => ruleEducational
  let issues :=
    structuralVIssues gc.code ++ bannedIssues narrations ++
    (if finalAlignment < v.alignmentThreshold then
      [.alignmentBelow finalAlignment v.alignmentThreshold] else []) ++
    (if finalEducational < v.educationalThreshold then
      [.educationalBelow finalEducational v.educationalThreshold] else [])
  { is_valid := issues.isEmpty
    issues_found := issues
    score_alignment := clampQ finalAlignment
    score_educational := clampQ finalEducational
    needs_regeneration := v.strict && !issues.isEmpty }

/-! ### Pipeline orchestration (`pipeline.py`)

Collaborator outputs.  `CodeValidator`, `SpatialValidator` and
`RenderTester` are injected collaborators of `generate_single_visualization`;
their records carry exactly the attributes the pipeline reads
(`pipeline.py` lines 322–329, 346–352, 362, 388, 408–414), with each
`get_feedback_message()` value carried as a stored field. -/

/-- Output of `CodeValidator.validate` as consumed by the pipeline: validity
flag, non-fixable issues, auto-fixed issues, and the possibly-rewritten code
that becomes the canonical code of the attempt. -/
structure ValidatorOutput where
  is_valid : Bool
  issues_found : List String
  issues_fixed : List String
  needs_regeneration : Bool
  code : String
deriving DecidableEq

/-- Output of `SpatialValidator.validate` as consumed by the pipeline. -/
structure SpatialValidatorOutput where
  has_spatial_issues : Bool
  needs_regeneration : Bool
  feedback_message : String
deriving DecidableEq

/-- Output of `RenderTester.test_render` as consumed by the pipeline. -/
structure RenderTestOutput where
  success : Bool
  error_type : String
  error_message : String
  feedback_message : String
deriving DecidableEq

/-- A visualization plan; the pipeline reads only its serialized form
(`plan.model_dump_json()`), carried as a field. -/
structure VisualizationPlan where
  dumpJson : String
  sceneCount : Nat
  durationSeconds : Nat
deriving DecidableEq

/-- `models.generation.VisualizationStatus` (pending/rendering/complete/failed). -/
inductive VisualizationStatus
  | pending
  | rendering
  | complete
  | failed
deriving DecidableEq

/-- `models.generation.Visualization`: the final artifact built by the
pipeline. -/
structure Visualization where
  id : String
  section_id : String
  concept : String
  storyboard : String
  manim_code : String
  video_url : Option String
  status : VisualizationStatus
deriving DecidableEq

/-- A raised Python exception. -/
inductive Exc
  | runtimeError (msg : String)
  | external (tag : String)
deriving DecidableEq

/-- `VOICE_MODE` values. -/
inductive VoiceMode
  | unified_generator
  | legacy_post_transform
deriving DecidableEq

/-- `VOICE_FAIL_BEHAVIOR` values. -/
inductive FailBehavior
  | drop_viz
  | return_silent
  | hard_error
deriving DecidableEq

/-- Static pipeline configuration: the module-level constants of
`pipeline.py` (defaults shown) together with the presence of each optional
injected collaborator (`spatial_validator`, `voiceover_script_validator`,
`render_tester`, `legacy_voiceover_generator` parameters). -/
structure PipelineConfig where
  maxRetries : Nat := 3
  voiceQualityRetries : Nat := 2
  enableVoiceover : Bool := true
  voiceMode : VoiceMode := .unified_generator
  voiceFailBehavior : FailBehavior := .drop_viz
  hasSpatialValidator : Bool := true
  hasVoiceScriptValidator : Bool := true
  hasRenderTester : Bool := true
  hasLegacyGenerator : Bool := false
deriving DecidableEq

/-- `voiceover_enabled_for_generation = ENABLE_VOICEOVER and VOICE_MODE ==
"unified_generator"` (line 305). -/
def voiceoverEnabledForGeneration (cfg : PipelineConfig) : Bool :=
  cfg.enableVoiceover && (cfg.voiceMode == .unified_generator)

/-- `max_attempts = MAX_RETRIES + (VOICE_QUALITY_RETRIES if
voiceover_enabled_for_generation else 0)` (line 306). -/
def maxAttempts (cfg : PipelineConfig) : Nat :=
  cfg.maxRetries + (if voiceoverEnabledForGeneration cfg then cfg.voiceQualityRetries else 0)

/-- One entry of `feedback_parts` (lines 322–329): each block is the message
contributed by one stored gate result, carried as structured data. -/
inductive FeedbackBlock
  | structural (issues : List String)
  | spatial (result : SpatialValidatorOutput)
  | voice (result : VoiceoverValidationOutput)
  | render (result : RenderTestOutput)
deriving DecidableEq

/-- `combined_feedback` (line 331): the joined nonempty block list, or the
fixed fallback message when no stored result contributed a block. -/
inductive FeedbackMsg
  | combined (blocks : List FeedbackBlock)
  | genericFallback
deriving DecidableEq

/-- The loop-carried variables of the retry loop (lines 298–302), all
initialized to `None` before the first attempt. -/
structure LoopState where
  codeResult : Option GeneratedCode := none
  validation : Option ValidatorOutput := none
  spatialResult : Option SpatialValidatorOutput := none
  voiceResult : Option VoiceoverValidationOutput := none
  renderResult : Option RenderTestOutput := none
deriving DecidableEq

/-- The initial loop state. -/
def initialState : LoopState := {}

/-- `feedback_parts` (lines 322–329) as a function of the four stored gate
results: a block per stored result that has issues, in gate order. -/
def feedbackPartsOf (v : Option ValidatorOutput) (sp : Option SpatialValidatorOutput)
    (vo : Option VoiceoverValidationOutput) (re : Option RenderTestOutput) :
    List FeedbackBlock :=
  (match v with
   | some v => if v.issues_found ≠ [] then [.structural v.issues_found] else []
   | none => []) ++
  (match sp with
   | some s => if s.has_spatial_issues then [.spatial s] else []
   | none => []) ++
  (match vo with
   | some v => if v.issues_found ≠ [] then [.voice v] else []
   | none => []) ++
  (match re with
   | some r => if !r.success then [.render r] else []
   | none => [])

/-- `combined_feedback` (line 331) as a function of the four stored gate
results. -/
def feedbackOf (v : Option ValidatorOutput) (sp : Option SpatialValidatorOutput)
    (vo : Option VoiceoverValidationOutput) (re : Option RenderTestOutput) : FeedbackMsg :=
  let parts := feedbackPartsOf v sp vo re
  if parts = [] then .genericFallback else .combined parts

/-- `feedback_parts` assembled from the loop state. -/
def feedbackParts (st : LoopState) : List FeedbackBlock :=
  feedbackPartsOf st.validation st.spatialResult st.voiceResult st.renderResult

/-- `combined_feedback` (line 331). -/
def combinedFeedback (st : LoopState) : FeedbackMsg :=
  feedbackOf st.validation st.spatialResult st.voiceResult st.renderResult

/-- Injected collaborators of one candidate's pipeline run, as oracles.  The
generator, render tester and legacy transform are external `await`ed calls
that may raise (hence `Except`) and may answer differently on different
attempts (hence the attempt index); `CodeValidator.validate` and
`SpatialValidator.validate` are deterministic functions of the code string;
the narration validator's outcome may depend on the attempt through its LLM
judge. -/
structure Oracles where
  vizId : String
  planner : Except Exc VisualizationPlan
  genRun : Except Exc GeneratedCode
  genFeedback : Nat → String → FeedbackMsg → Except Exc GeneratedCode
  codeValidate : String → ValidatorOutput
  spatialValidate : String → SpatialValidatorOutput
  voiceValidate : Nat → GeneratedCode → VoiceoverValidationOutput
  renderTest : Nat → String → Except Exc RenderTestOutput
  legacyTransform : String → Except Exc String

/-- Trace of one attempt of the retry loop: the state it started from, the
feedback it passed to the generator (`none` on attempt 0), the raw generated
code, each gate's result if that gate ran (`valOut` is always present —
stage 1 runs on every attempt), the `code_result` value stored at the end of
the attempt, and whether every enabled gate passed. -/
structure AttemptRecord where
  stateBefore : LoopState
  feedbackUsed : Option FeedbackMsg
  generated : GeneratedCode
  valOut : ValidatorOutput
  spatOut : Option SpatialValidatorOutput
  voiceOut : Option VoiceoverValidationOutput
  rendOut : Option RenderTestOutput
  storedCode : GeneratedCode
  succeeded : Bool
deriving DecidableEq

/-- How one attempt record updates the loop-carried variables: `code_result`
and `validation` are reassigned every attempt; the other gate results are
reassigned exactly when their gate ran. -/
def updState (st : LoopState) (r : AttemptRecord) : LoopState :=
  { codeResult := some r.storedCode
    validation := some r.valOut
    spatialResult := r.spatOut.or st.spatialResult
    voiceResult := r.voiceOut.or st.voiceResult
    renderResult := r.rendOut.or st.renderResult }

/-- One iteration of the retry loop (lines 308–421): generate (feedback mode
from attempt 1 on), then the four gates in order, short-circuiting to the
next attempt on the first gate failure. -/
def runAttempt (cfg : PipelineConfig) (or : Oracles)
    (attempt : Nat) (st : LoopState) : Except Exc (AttemptRecord × LoopState) :=
  let genCall : Except Exc GeneratedCode :=
    if attempt == 0 then or.genRun
    else or.genFeedback attempt
      (match st.codeResult with | some c => c.code | none => "")
      (combinedFeedback st)
  let fb : Option FeedbackMsg := if attempt == 0 then none else some (combinedFeedback st)
  match genCall with
  | .error e => .error e
  | .ok codeRes =>
    -- Stage 1: code validation (always runs).
    let validation := or.codeValidate codeRes.code
    if validation.needs_regeneration || !validation.is_valid then
      let rec1 : AttemptRecord :=
        { stateBefore := st, feedbackUsed := fb, generated := codeRes, valOut := validation
          spatOut := none, voiceOut := none, rendOut := none
          storedCode := codeRes, succeeded := false }
      .ok (rec1, updState st rec1)
    else
      let current := validation.code
      -- Stage 2: spatial validation (when the validator was injected).
      let spatOut : Option SpatialValidatorOutput :=
        if cfg.hasSpatialValidator then some (or.spatialValidate current) else none
      let spatFailed := match spatOut with | some s => s.needs_regeneration | none => false
      if spatFailed then
        let rec2 : AttemptRecord :=
          { stateBefore := st, feedbackUsed := fb, generated := codeRes, valOut := validation
            spatOut := spatOut, voiceOut := none, rendOut := none
            storedCode := codeRes, succeeded := false }
        .ok (rec2, updState st rec2)
      else
        -- Stage 3: narration quality validation (unified voice mode with an
        -- injected validator); mutates `code_result` before validating.
        let voiceStage : GeneratedCode × Option VoiceoverValidationOutput :=
          if voiceoverEnabledForGeneration cfg && cfg.hasVoiceScriptValidator then
            let meta := extractVoiceoverMetadata current
            let codeRes2 : GeneratedCode :=
              { codeRes with
                code := current,
                narration_lines := meta.1,
                narration_beats := meta.2,
                voiceover_enabled := true }
            (codeRes2, some (or.voiceValidate attempt codeRes2))
          else (codeRes, none)
        let codeRes2 := voiceStage.1
        let voiceOut := voiceStage.2
        let voiceFailed := match voiceOut with | some v => v.needs_regeneration | none => false
        if voiceFailed then
          let rec3 : AttemptRecord :=
            { stateBefore := st, feedbackUsed := fb, generated := codeRes, valOut := validation
              spatOut := spatOut, voiceOut := voiceOut, rendOut := none
              storedCode := codeRes2, succeeded := false }
          .ok (rec3, updState st rec3)
        else
          -- Stage 4: render test (when the tester was injected); an awaited
          -- external call that may raise.
          if cfg.hasRenderTester then
            match or.renderTest attempt current with
            | .error e => .error e
            | .ok rend =>
              if !rend.success then
                let rec4 : AttemptRecord :=
                  { stateBefore := st, feedbackUsed := fb, generated := codeRes
                    valOut := validation, spatOut := spatOut, voiceOut := voiceOut
                    rendOut := some rend, storedCode := codeRes2, succeeded := false }
                .ok (rec4, updState st rec4)
              else
                let rec5 : AttemptRecord :=
                  { stateBefore := st, feedbackUsed := fb, generated := codeRes
                    valOut := validation, spatOut := spatOut, voiceOut := voiceOut
                    rendOut := some rend, storedCode := { codeRes2 with code := current }
                    succeeded := true }
                .ok (rec5, updState st rec5)
          else
            let rec6 : AttemptRecord :=
              { stateBefore := st, feedbackUsed := fb, generated := codeRes
                valOut := validation, spatOut := spatOut, voiceOut := voiceOut
                rendOut := none, storedCode := { codeRes2 with code := current }
                succeeded := true }
            .ok (rec6, updState st rec6)

/-- The retry loop `for attempt in range(max_attempts)` (line 308), driven
by the remaining attempt count: returns the attempt records, the final
loop-carried state, and whether some attempt succeeded (`break`) — `false`
means the budget was exhausted (the `for`/`else` branch). -/
def runLoop (cfg : PipelineConfig) (or : Oracles) :
    Nat → Nat → LoopState → Except Exc (List AttemptRecord × LoopState × Bool)
  | _, 0, st => .ok ([], st, false)
  | attempt, fuel + 1, st =>
    match runAttempt cfg or attempt st with
    | .error e => .error e
    | .ok (r, st') =>
      if r.succeeded then .ok ([r], st', true)
      else
        match runLoop cfg or (attempt + 1) fuel st' with
        | .error e => .error e
        | .ok (rs, st'', b) => .ok (r :: rs, st'', b)

/-- Whether an attempt's structural gate passed. -/
def structPassedR (r : AttemptRecord) : Bool :=
  !(r.valOut.needs_regeneration || !r.valOut.is_valid)

/-- Whether an attempt's spatial gate ran and failed. -/
def spatialFailedR (r : AttemptRecord) : Bool :=
  match r.spatOut with
  | some s => s.needs_regeneration
  | none => false

/-- Whether an attempt's narration gate ran and failed. -/
def voiceFailedR (r : AttemptRecord) : Bool :=
  match r.voiceOut with
  | some v => v.needs_regeneration
  | none => false

/-- The most recently recorded structural-validator result over a record
prefix. -/
def latestVal (recs : List AttemptRecord) : Option ValidatorOutput :=
  recs.reverse.findSome? fun r => some r.valOut

/-- The most recently recorded spatial result over a record prefix. -/
def latestSpat (recs : List AttemptRecord) : Option SpatialValidatorOutput :=
  recs.reverse.findSome? AttemptRecord.spatOut

/-- The most recently recorded narration-validation result over a record
prefix. -/
def latestVoice (recs : List AttemptRecord) : Option VoiceoverValidationOutput :=
  recs.reverse.findSome? AttemptRecord.voiceOut

/-- The most recently recorded render result over a record prefix. -/
def latestRend (recs : List AttemptRecord) : Option RenderTestOutput :=
  recs.reverse.findSome? AttemptRecord.rendOut

/-- The most recently stored `code_result` over a record prefix. -/
def latestStored (recs : List AttemptRecord) : Option GeneratedCode :=
  recs.reverse.findSome? fun r => some r.storedCode

/-- The body of `generate_single_visualization`'s `try:` block (lines
286–457): plan, retry loop, then either the accepted artifact (optionally
passed through the legacy voiceover transform) or the configured
budget-exhaustion behaviour — `hard_error` raises, `return_silent` returns a
pending artifact built from the last stored code when present, `drop_viz`
returns `None`. -/
def generateSingleExc (cfg : PipelineConfig) (or : Oracles)
    (cand : VisualizationCandidate) : Except Exc (Option Visualization) :=
  match or.planner with
  | .error e => .error e
  | .ok plan =>
    match runLoop cfg or 0 (maxAttempts cfg) initialState with
    | .error e => .error e
    | .ok (_, st, success) =>
      if success then
        let finalCode := match st.codeResult with | some c => c.code | none => ""
        let transformed : Except Exc String :=
          if cfg.enableVoiceover && (cfg.voiceMode == .legacy_post_transform)
              && cfg.hasLegacyGenerator then
            or.legacyTransform finalCode
          else .ok finalCode
        match transformed with
        | .error e => .error e
        | .ok fc =>
          .ok (some
            { id := or.vizId, section_id := cand.section_id, concept := cand.concept_name
              storyboard := plan.dumpJson, manim_code := fc, video_url := none
              status := .pending })
      else
        match cfg.voiceFailBehavior with
        | .hard_error =>
          .error (.runtimeError ("Strict quality checks failed for " ++ cand.concept_name))
        | .return_silent =>
          match st.codeResult with
          | some c =>
            .ok (some
              { id := or.vizId, section_id := cand.section_id, concept := cand.concept_name
                storyboard := plan.dumpJson, manim_code := c.code, video_url := none
                status := .pending })
          | none => .ok none
        | .drop_viz => .ok none

/-- `generate_single_visualization` (lines 266–461): the `try:` body wrapped
in the blanket `except Exception` handler that logs and returns `None`. -/
def generateSingleVisualization (cfg : PipelineConfig) (or : Oracles)
    (cand : VisualizationCandidate) : Option Visualization :=
  match generateSingleExc cfg or cand with
  | .ok v => v
  | .error _ => none

/-- The result-collection loop after `asyncio.gather(*tasks,
return_exceptions=True)` (lines 183–189): exceptions are logged and
dropped, `None` results are dropped, artifacts are appended in order. -/
def gatherCollect (results : List (Except Exc (Option Visualization))) : List Visualization :=
  results.foldl
    (fun acc r =>
      match r with
      | .error _ => acc
      | .ok none => acc
      | .ok (some v) => acc ++ [v]) []

/-- Python's stable `candidates.sort(key=lambda x: x.priority, reverse=True)`
followed by the `[:max_visualizations]` cap (lines 158–159). -/
def sortAndCap (cands : List VisualizationCandidate) (maxViz : Nat) :
    List VisualizationCandidate :=
  (cands.mergeSort fun a b => decide (b.priority ≤ a.priority)).take maxViz

/-- The concurrent per-candidate phase of `generate_visualizations` (lines
158–208) from the analyzed candidate list on: sort by priority, cap, fan the
candidates out (each candidate's collaborators given by `oraclesOf`), gather
with per-candidate exception isolation, and collect the non-`None` results.
The section-analysis phase that produces `cands` is oracle-driven and not
embedded. -/
def generateVisualizationsModel (cfg : PipelineConfig)
    (oraclesOf : VisualizationCandidate → Oracles)
    (cands : List VisualizationCandidate) (maxViz : Nat) : List Visualization :=
  gatherCollect ((sortAndCap cands maxViz).map fun c =>
    .ok (generateSingleVisualization cfg (oraclesOf c) c))

/-! ### Concrete collaborator behaviours

Concrete configurations, candidates and oracle assignments used to evaluate
the pipeline at specific inputs. -/

/-- A sample candidate. -/
def candAttention : VisualizationCandidate :=
  { section_id := "sec_3", concept_name := "Attention",
    concept_description := "dot product attention", context := "transformers",
    visualization_type := "animation", priority := 5 }

/-- A code validator verdict that accepts the code unchanged. -/
def passValidator (code : String) : ValidatorOutput :=
  { is_valid := true, issues_found := [], issues_fixed := [],
    needs_regeneration := false, code := code }

/-- A code validator verdict that rejects the code. -/
def failValidator (code : String) : ValidatorOutput :=
  { is_valid := false, issues_found := ["SyntaxError: invalid syntax"],
    issues_fixed := [], needs_regeneration := true, code := code }

/-- A clean spatial verdict. -/
def passSpatial : SpatialValidatorOutput :=
  { has_spatial_issues := false, needs_regeneration := false, feedback_message := "" }

/-- A passing narration verdict. -/
def passVoice : VoiceoverValidationOutput :=
  { is_valid := true, issues_found := [], score_alignment := 1,
    score_educational := 1, needs_regeneration := false }

/-- A passing render verdict. -/
def passRender : RenderTestOutput :=
  { success := true, error_type := "", error_message := "", feedback_message := "" }

/-- A failing render verdict. -/
def renderBoom : RenderTestOutput :=
  { success := false, error_type := "RuntimeError", error_message := "boom",
    feedback_message := "RENDER FAILED: boom" }

/-- A generator output. -/
def rawGen : GeneratedCode := { code := "RAW" }

/-- A plan. -/
def planA : VisualizationPlan :=
  { dumpJson := "storyboard-json", sceneCount := 2, durationSeconds := 40 }

/-- Configuration selecting the `hard_error` failure policy. -/
def hardErrorCfg : PipelineConfig := { voiceFailBehavior := .hard_error }

/-- Collaborators whose code validator rejects every attempt. -/
def alwaysFailOracles : Oracles :=
  { vizId := "viz_00000001", planner := .ok planA,
    genRun := .ok rawGen, genFeedback := fun _ _ _ => .ok rawGen,
    codeValidate := failValidator, spatialValidate := fun _ => passSpatial,
    voiceValidate := fun _ _ => passVoice, renderTest := fun _ _ => .ok passRender,
    legacyTransform := fun s => .ok s }

/-- Configuration with narration mode disabled and no spatial validator. -/
def dropCfgNoVoice : PipelineConfig :=
  { enableVoiceover := false, hasVoiceScriptValidator := false,
    hasSpatialValidator := false }

/-- Collaborators staging: attempt 0 passes structure but fails the render
test; attempt 1 fails structure; attempt 2 passes everything. -/
def stagedOracles : Oracles :=
  { vizId := "viz_c2", planner := .ok planA,
    genRun := .ok { code := "A" },
    genFeedback := fun attempt _ _ => .ok { code := if attempt == 1 then "B" else "C" },
    codeValidate := fun code => if code == "B" then failValidator code else passValidator code,
    spatialValidate := fun _ => passSpatial,
    voiceValidate := fun _ _ => passVoice,
    renderTest := fun _ code => .ok (if code == "A" then renderBoom else passRender),
    legacyTransform := fun s => .ok s }

/-- Attempt records of the staged run. -/
def stagedRecords : List AttemptRecord :=
  match runLoop dropCfgNoVoice stagedOracles 0 (maxAttempts dropCfgNoVoice) initialState with
  | .ok (recs, _, _) => recs
  | .error _ => []

/-- Configuration selecting the silent failure policy, without spatial
validation or render testing. -/
def silentCfg : PipelineConfig :=
  { voiceFailBehavior := .return_silent, hasSpatialValidator := false,
    hasRenderTester := false }

/-- A code validator verdict that auto-fixes: it accepts but rewrites the
code (the one gate empowered to repair its input). -/
def fixingValidator (_code : String) : ValidatorOutput :=
  { is_valid := true, issues_found := [], issues_fixed := ["Added missing import"],
    needs_regeneration := false, code := "FIXED" }

/-- A rejecting narration verdict. -/
def voiceReject : VoiceoverValidationOutput :=
  { is_valid := false, issues_found := [.noNarrationBlocks], score_alignment := 0,
    score_educational := 0, needs_regeneration := true }

/-- Collaborators whose narration gate rejects every attempt while the code
validator rewrites the generated code. -/
def silentOracles : Oracles :=
  { vizId := "viz_c6", planner := .ok planA,
    genRun := .ok rawGen, genFeedback := fun _ _ _ => .ok rawGen,
    codeValidate := fixingValidator, spatialValidate := fun _ => passSpatial,
    voiceValidate := fun _ _ => voiceReject, renderTest := fun _ _ => .ok passRender,
    legacyTransform := fun s => .ok s }

/-- Collaborators that accept on the first attempt. -/
def goodOracles (vid code : String) : Oracles :=
  { vizId := vid, planner := .ok planA,
    genRun := .ok { code := code }, genFeedback := fun _ _ _ => .ok { code := code },
    codeValidate := passValidator, spatialValidate := fun _ => passSpatial,
    voiceValidate := fun _ _ => passVoice, renderTest := fun _ _ => .ok passRender,
    legacyTransform := fun s => .ok s }

/-- Collaborators whose generator raises a transport exception. -/
def transportFailOracles : Oracles :=
  { vizId := "viz_err", planner := .ok planA,
    genRun := .error (.external "ConnectionError"),
    genFeedback := fun _ _ _ => .error (.external "ConnectionError"),
    codeValidate := passValidator, spatialValidate := fun _ => passSpatial,
    voiceValidate := fun _ _ => passVoice, renderTest := fun _ _ => .ok passRender,
    legacyTransform := fun s => .ok s }

/-- Three sibling candidates of one paper. -/
def candA : VisualizationCandidate :=
  { section_id := "s1", concept_name := "Alpha", concept_description := "a",
    context := "ctx", visualization_type := "animation", priority := 5 }

/-- Second sibling. -/
def candB : VisualizationCandidate :=
  { section_id := "s2", concept_name := "Beta", concept_description := "b",
    context := "ctx", visualization_type := "animation", priority := 4 }

/-- Third sibling. -/
def candC : VisualizationCandidate :=
  { section_id := "s3", concept_name := "Gamma", concept_description := "c",
    context := "ctx", visualization_type := "animation", priority := 3 }

/-- Oracle assignment where the middle-priority candidate's generator raises. -/
def siblingOraclesOf (c : VisualizationCandidate) : Oracles :=
  if c.concept_name == "Beta" then transportFailOracles
  else goodOracles ("viz_" ++ c.section_id) ("code_" ++ c.concept_name)

/-- A source string containing one keyword-form and one positional-form
narration block. -/
def mixedFormsCode : String :=
  "with self.voiceover(text=\"Alpha beta\") as tracker:\n    pass\nwith self.voiceover(\"Gamma delta\") as tracker:\n    pass\n"

/-- Sample candidate for validator evaluations. -/
def candW : VisualizationCandidate :=
  { section_id := "sec1", concept_name := "Softmax Attention",
    concept_description := "computes attention weights",
    context := "transformer context windows",
    visualization_type := "animation", priority := 5 }

/-- Sample generated code with one narration block. -/
def gcW : GeneratedCode :=
  { code := "class SceneW(VoiceoverScene):\n    def construct(self):\n        self.set_speech_service(Service())\n        with self.voiceover(text=\"The softmax turns scores into attention weights\") as tracker:\n            pass\n"
    narration_lines := ["The softmax turns scores into attention weights"]
    narration_beats := []
    voiceover_enabled := true }

/-- Collaborators staging one render failure then success. -/
def retryOracles : Oracles :=
  { vizId := "viz_rt", planner := .ok planA,
    genRun := .ok { code := "A" },
    genFeedback := fun _ _ _ => .ok { code := "C" },
    codeValidate := passValidator, spatialValidate := fun _ => passSpatial,
    voiceValidate := fun _ _ => passVoice,
    renderTest := fun _ code => .ok (if code == "A" then renderBoom else passRender),
    legacyTransform := fun s => .ok s }

/-- First attempt record of the `retryOracles` run under `dropCfgNoVoice`. -/
def retryRec0 : AttemptRecord :=
  { stateBefore := initialState, feedbackUsed := none, generated := { code := "A" }
    valOut := passValidator "A", spatOut := none, voiceOut := none
    rendOut := some renderBoom, storedCode := { code := "A" }, succeeded := false }

/-- Second attempt record of the `retryOracles` run. -/
def retryRec1 : AttemptRecord :=
  { stateBefore := updState initialState retryRec0
    feedbackUsed := some (.combined [.render renderBoom])
    generated := { code := "C" }, valOut := passValidator "C", spatOut := none
    voiceOut := none, rendOut := some passRender, storedCode := { code := "C" }
    succeeded := true }

/-- The single attempt record of a one-shot successful run of
`goodOracles "v" "X"` under `dropCfgNoVoice`. -/
def oneShotRec : AttemptRecord :=
  { stateBefore := initialState, feedbackUsed := none, generated := { code := "X" }
    valOut := passValidator "X", spatOut := none, voiceOut := none
    rendOut := some passRender, storedCode := { code := "X" }, succeeded := true }

/-- Silent-policy configuration with a budget of one attempt. -/
def silentCfgSmall : PipelineConfig :=
  { voiceFailBehavior := .return_silent, maxRetries := 1, voiceQualityRetries := 0,
    hasSpatialValidator := false, hasRenderTester := false }

/-- The single attempt record of the `silentOracles` run under
`silentCfgSmall`: the structural validator rewrites the code to `FIXED`, the
narration gate then rejects. -/
def silentRec : AttemptRecord :=
  { stateBefore := initialState, feedbackUsed := none, generated := rawGen
    valOut := fixingValidator "RAW", spatOut := none, voiceOut := some voiceReject
    rendOut := none
    storedCode := { code := "FIXED", narration_lines := [], narration_beats := []
                    voiceover_enabled := true }
    succeeded := false }

/-! ## Theorems

### Matcher and scan facts -/

theorem bind_some_elim {α β : Type} {o : Option α} {f : α → Option β} {b : β}
    (h : o.bind f = some b) : ∃ a, o = some a ∧ f a = some b := by
  cases o with
  | none => simp at h
  | some a => exact ⟨a, rfl, h⟩

theorem matchLit_shape : ∀ (l s r : List Char), matchLit l s = some r → s = l ++ r := by
  intro l
  induction l with
  | nil =>
    intro s r h
    simp only [matchLit, Option.some_inj] at h
    simp [h]
  | cons a l ih =>
    intro s r h
    cases s with
    | nil => simp [matchLit] at h
    | cons c cs =>
      simp only [matchLit] at h
      by_cases hc : c = a
      · subst hc
        simp only [if_pos rfl] at h
        simpa using ih cs r h
      · simp [hc] at h

theorem dropSpacesL_length_le (s : List Char) : (dropSpacesL s).length ≤ s.length :=
  (List.dropWhile_suffix isPySpace).length_le

theorem matchLit_length_le {l s r : List Char} (h : matchLit l s = some r) :
    r.length ≤ s.length := by
  have := matchLit_shape l s r h
  subst this
  simp

theorem matchSpaces1_length_lt {s r : List Char} (h : matchSpaces1 s = some r) :
    r.length < s.length := by
  cases s with
  | nil => simp [matchSpaces1] at h
  | cons c cs =>
    simp only [matchSpaces1] at h
    by_cases hc : isPySpace c = true
    · simp only [if_pos hc, Option.some_inj] at h
      subst h
      exact Nat.lt_succ_of_le (dropSpacesL_length_le cs)
    · simp [hc] at h

theorem takeUntilQuote_shape :
    ∀ (s a r : List Char), takeUntilQuote s = some (a, r) → s = a ++ '"' :: r := by
  intro s
  induction s with
  | nil => intro a r h; simp [takeUntilQuote] at h
  | cons c cs ih =>
    intro a r h
    by_cases hc : c = '"'
    · subst hc
      simp only [takeUntilQuote, if_pos rfl] at h
      have h' := Option.some_inj.mp h
      have ha : a = [] := (congrArg Prod.fst h').symm
      have hr : r = cs := (congrArg Prod.snd h').symm
      rw [ha, hr]
      simp
    · simp only [takeUntilQuote, if_neg hc, Option.map_eq_some'] at h
      obtain ⟨⟨a', r'⟩, hm, he⟩ := h
      have ha : a = c :: a' := (congrArg Prod.fst he).symm
      have hr : r = r' := (congrArg Prod.snd he).symm
      rw [ha, hr]
      simpa using congrArg (c :: ·) (ih a' r' hm)

theorem takeCapture_shape {s a r : List Char} (h : takeCapture s = some (a, r)) :
    s = a ++ '"' :: r := by
  unfold takeCapture at h
  obtain ⟨⟨a', r'⟩, hu, hif⟩ := bind_some_elim h
  by_cases ha : a' = []
  · simp [ha] at hif
  · have hif2 : some (a', r') = some (a, r) := by
      simpa [ha] using hif
    have h' := Option.some_inj.mp hif2
    have ha2 : a = a' := (congrArg Prod.fst h').symm
    have hr2 : r = r' := (congrArg Prod.snd h').symm
    rw [ha2, hr2]
    exact takeUntilQuote_shape s a' r' hu

theorem takeCapture_length_lt {s a r : List Char} (h : takeCapture s = some (a, r)) :
    r.length < s.length := by
  have := takeCapture_shape h
  subst this
  simp only [List.length_append, List.length_cons]
  omega

theorem matchKwOpen_length_lt {s r : List Char} (h : matchKwOpen s = some r) :
    r.length < s.length := by
  unfold matchKwOpen at h
  obtain ⟨s1, h1, h⟩ := bind_some_elim h
  obtain ⟨s2, h2, h⟩ := bind_some_elim h
  obtain ⟨s3, h3, h⟩ := bind_some_elim h
  obtain ⟨s4, h4, h⟩ := bind_some_elim h
  obtain ⟨s5, h5, h⟩ := bind_some_elim h
  obtain ⟨s6, h6, h7⟩ := bind_some_elim h
  have g1 := matchLit_shape _ _ _ h1
  have g1' : s.length = s1.length + 4 := by
    rw [g1]; simp only [List.length_append, List.length_cons, List.length_nil]; omega
  have g2 := matchSpaces1_length_lt h2
  have g3 := matchLit_length_le h3
  have g4 := le_trans (matchLit_length_le h4) (dropSpacesL_length_le s3)
  have g5 := le_trans (matchLit_length_le h5) (dropSpacesL_length_le s4)
  have g6 := le_trans (matchLit_length_le h6) (dropSpacesL_length_le s5)
  have g7 := le_trans (matchLit_length_le h7) (dropSpacesL_length_le s6)
  omega

theorem matchPosOpen_length_lt {s r : List Char} (h : matchPosOpen s = some r) :
    r.length < s.length := by
  unfold matchPosOpen at h
  obtain ⟨s1, h1, h⟩ := bind_some_elim h
  obtain ⟨s2, h2, h⟩ := bind_some_elim h
  obtain ⟨s3, h3, h⟩ := bind_some_elim h
  obtain ⟨s4, h4, h5⟩ := bind_some_elim h
  have g1 := matchLit_shape _ _ _ h1
  have g1' : s.length = s1.length + 4 := by
    rw [g1]; simp only [List.length_append, List.length_cons, List.length_nil]; omega
  have g2 := matchSpaces1_length_lt h2
  have g3 := matchLit_length_le h3
  have g4 := le_trans (matchLit_length_le h4) (dropSpacesL_length_le s3)
  have g5 := le_trans (matchLit_length_le h5) (dropSpacesL_length_le s4)
  omega

theorem matchBlockClose_length_le {s r : List Char} (h : matchBlockClose s = some r) :
    r.length ≤ s.length := by
  unfold matchBlockClose at h
  obtain ⟨s1, h1, h⟩ := bind_some_elim h
  obtain ⟨s2, h2, h⟩ := bind_some_elim h
  obtain ⟨s3, h3, h⟩ := bind_some_elim h
  obtain ⟨s4, h4, h⟩ := bind_some_elim h
  obtain ⟨s5, h5, h6⟩ := bind_some_elim h
  have g1 := le_trans (matchLit_length_le h1) (dropSpacesL_length_le s)
  have g2 := le_of_lt (matchSpaces1_length_lt h2)
  have g3 := matchLit_length_le h3
  have g4 := le_of_lt (matchSpaces1_length_lt h4)
  have g5 := matchLit_length_le h5
  have g6 := le_trans (matchLit_length_le h6) (dropSpacesL_length_le s5)
  omega

/-- A matcher strictly consumes input on success. -/
def Consumes (m : List Char → Option (List Char × List Char)) : Prop :=
  ∀ s cap rest, m s = some (cap, rest) → rest.length < s.length

theorem matchKw_consumes : Consumes matchKw := by
  intro s cap rest h
  unfold matchKw at h
  obtain ⟨r1, h1, h⟩ := bind_some_elim h
  obtain ⟨⟨c2, r2⟩, h2, h3⟩ := bind_some_elim h
  simp only [Option.map_eq_some'] at h3
  obtain ⟨r3, h3, he⟩ := h3
  have he2 : rest = r3 := (congrArg Prod.snd he).symm
  rw [he2]
  calc r3.length ≤ r2.length := matchBlockClose_length_le h3
    _ < r1.length := takeCapture_length_lt h2
    _ < s.length := matchKwOpen_length_lt h1

theorem matchPos_consumes : Consumes matchPos := by
  intro s cap rest h
  unfold matchPos at h
  obtain ⟨r1, h1, h⟩ := bind_some_elim h
  obtain ⟨⟨c2, r2⟩, h2, h3⟩ := bind_some_elim h
  simp only [Option.map_eq_some'] at h3
  obtain ⟨r3, h3, he⟩ := h3
  have he2 : rest = r3 := (congrArg Prod.snd he).symm
  rw [he2]
  calc r3.length ≤ r2.length := matchBlockClose_length_le h3
    _ < r1.length := takeCapture_length_lt h2
    _ < s.length := matchPosOpen_length_lt h1

theorem matchEither_consumes : Consumes matchEither := by
  intro s cap rest h
  unfold matchEither at h
  cases hk : matchKw s with
  | some p =>
    rw [hk] at h
    cases h
    exact matchKw_consumes s cap rest hk
  | none =>
    rw [hk] at h
    exact matchPos_consumes s cap rest h

theorem scanFuel_nil (m : List Char → Option (List Char × List Char)) (f : Nat) :
    scanFuel m f [] = [] := by
  cases f <;> rfl

theorem scanFuel_congr {m : List Char → Option (List Char × List Char)}
    (hm : Consumes m) :
    ∀ f g s, s.length ≤ f → s.length ≤ g → scanFuel m f s = scanFuel m g s := by
  intro f
  induction f with
  | zero =>
    intro g s hf _
    have : s = [] := List.eq_nil_of_length_eq_zero (Nat.le_zero.mp hf)
    subst this
    rw [scanFuel_nil, scanFuel_nil]
  | succ f ih =>
    intro g s hf hg
    cases s with
    | nil => rw [scanFuel_nil, scanFuel_nil]
    | cons c cs =>
      cases g with
      | zero => simp at hg
      | succ g' =>
        cases hmc : m (c :: cs) with
        | some p =>
          obtain ⟨cap, rest⟩ := p
          have hlt := hm _ _ _ hmc
          simp only [List.length_cons] at hlt hf hg
          simp only [scanFuel, hmc]
          congr 1
          exact ih g' rest (by omega) (by omega)
        | none =>
          simp only [List.length_cons] at hf hg
          simp only [scanFuel, hmc]
          exact ih g' cs (by omega) (by omega)

theorem scanFuel_eq_some {m : List Char → Option (List Char × List Char)}
    (hm : Consumes m) {s cap rest : List Char} (h : m s = some (cap, rest)) :
    scanFuel m s.length s = cap :: scanFuel m rest.length rest := by
  cases s with
  | nil =>
    have := hm _ _ _ h
    simp at this
  | cons c cs =>
    have hlt := hm _ _ _ h
    simp only [List.length_cons] at hlt ⊢
    simp only [scanFuel, h]
    congr 1
    exact scanFuel_congr hm cs.length rest.length rest (by omega) le_rfl

theorem scanFuel_cons_none {m : List Char → Option (List Char × List Char)}
    {c : Char} {cs : List Char} (h : m (c :: cs) = none) :
    scanFuel m (c :: cs).length (c :: cs) = scanFuel m cs.length cs := by
  simp only [List.length_cons, scanFuel, h]

theorem scanKw_eq_some {s cap rest : List Char} (h : matchKw s = some (cap, rest)) :
    scanKw s = cap :: scanKw rest :=
  scanFuel_eq_some matchKw_consumes h

theorem scanKw_cons_none {c : Char} {cs : List Char} (h : matchKw (c :: cs) = none) :
    scanKw (c :: cs) = scanKw cs :=
  scanFuel_cons_none h

theorem scanPos_eq_some {s cap rest : List Char} (h : matchPos s = some (cap, rest)) :
    scanPos s = cap :: scanPos rest :=
  scanFuel_eq_some matchPos_consumes h

theorem scanPos_cons_none {c : Char} {cs : List Char} (h : matchPos (c :: cs) = none) :
    scanPos (c :: cs) = scanPos cs :=
  scanFuel_cons_none h

/-! Evaluation of the matchers on rendered narration blocks. -/

theorem matchKwOpen_run (r : List Char) :
    matchKwOpen ("with self.voiceover(text=".toList ++ '"' :: r) = some r := rfl

theorem matchPosOpen_run (r : List Char) :
    matchPosOpen ("with self.voiceover(".toList ++ '"' :: r) = some r := rfl

theorem matchBlockClose_run (x : List Char) :
    matchBlockClose (") as tracker:".toList ++ x) = some x := rfl

theorem matchKw_newline (xs : List Char) : matchKw ('\n' :: xs) = none := rfl

theorem matchPos_newline (xs : List Char) : matchPos ('\n' :: xs) = none := rfl

theorem takeUntilQuote_append {t : List Char} (ht : '"' ∉ t) (z : List Char) :
    takeUntilQuote (t ++ '"' :: z) = some (t, z) := by
  induction t with
  | nil => simp [takeUntilQuote]
  | cons c cs ih =>
    have hc : c ≠ '"' := fun h => ht (h ▸ List.mem_cons_self c cs)
    have hcs : '"' ∉ cs := fun h => ht (List.mem_cons_of_mem c h)
    rw [List.cons_append]
    simp only [takeUntilQuote, if_neg hc]
    rw [ih hcs]
    simp

theorem takeCapture_append {t : List Char} (ht0 : t ≠ []) (ht : '"' ∉ t) (z : List Char) :
    takeCapture (t ++ '"' :: z) = some (t, z) := by
  unfold takeCapture
  rw [takeUntilQuote_append ht z]
  simp [ht0]

theorem matchKw_block {t : List Char} (ht0 : t ≠ []) (ht : '"' ∉ t) (rest : List Char) :
    matchKw (kwBlockChars t ++ rest) = some (t, '\n' :: rest) := by
  have hshape : kwBlockChars t ++ rest =
      "with self.voiceover(text=".toList ++
        '"' :: (t ++ '"' :: (") as tracker:".toList ++ '\n' :: rest)) := by
    simp [kwBlockChars]
  rw [hshape]
  unfold matchKw
  rw [matchKwOpen_run]
  simp only [Option.some_bind]
  rw [takeCapture_append ht0 ht]
  simp only [Option.some_bind]
  rw [matchBlockClose_run]
  rfl

theorem matchPos_block {t : List Char} (ht0 : t ≠ []) (ht : '"' ∉ t) (rest : List Char) :
    matchPos (posBlockChars t ++ rest) = some (t, '\n' :: rest) := by
  have hshape : posBlockChars t ++ rest =
      "with self.voiceover(".toList ++
        '"' :: (t ++ '"' :: (") as tracker:".toList ++ '\n' :: rest)) := by
    simp [posBlockChars]
  rw [hshape]
  unfold matchPos
  rw [matchPosOpen_run]
  simp only [Option.some_bind]
  rw [takeCapture_append ht0 ht]
  simp only [Option.some_bind]
  rw [matchBlockClose_run]
  rfl

theorem scanKw_renderKw :
    ∀ (ts : List (List Char)) (rest : List Char),
      (∀ t ∈ ts, t ≠ [] ∧ '"' ∉ t) →
      scanKw (renderKwChars ts ++ rest) = ts ++ scanKw rest := by
  intro ts
  induction ts with
  | nil => intro rest _; simp [renderKwChars]
  | cons t ts ih =>
    intro rest h
    obtain ⟨ht0, htq⟩ := h t (List.mem_cons_self t ts)
    have hshape : renderKwChars (t :: ts) ++ rest =
        kwBlockChars t ++ (renderKwChars ts ++ rest) := by
      simp [renderKwChars]
    rw [hshape, scanKw_eq_some (matchKw_block ht0 htq _)]
    have hnl : scanKw ('\n' :: (renderKwChars ts ++ rest)) =
        scanKw (renderKwChars ts ++ rest) :=
      scanKw_cons_none (matchKw_newline _)
    rw [hnl, ih rest fun x hx => h x (List.mem_cons_of_mem t hx)]
    rfl

theorem scanPos_renderPos :
    ∀ (ts : List (List Char)) (rest : List Char),
      (∀ t ∈ ts, t ≠ [] ∧ '"' ∉ t) →
      scanPos (renderPosChars ts ++ rest) = ts ++ scanPos rest := by
  intro ts
  induction ts with
  | nil => intro rest _; simp [renderPosChars]
  | cons t ts ih =>
    intro rest h
    obtain ⟨ht0, htq⟩ := h t (List.mem_cons_self t ts)
    have hshape : renderPosChars (t :: ts) ++ rest =
        posBlockChars t ++ (renderPosChars ts ++ rest) := by
      simp [renderPosChars]
    rw [hshape, scanPos_eq_some (matchPos_block ht0 htq _)]
    have hnl : scanPos ('\n' :: (renderPosChars ts ++ rest)) =
        scanPos (renderPosChars ts ++ rest) :=
      scanPos_cons_none (matchPos_newline _)
    rw [hnl, ih rest fun x hx => h x (List.mem_cons_of_mem t hx)]
    rfl

/-! The keyword pattern cannot match inside text containing no `=`. -/

theorem mem_of_dropSpacesL {a : Char} {s : List Char} (h : a ∈ dropSpacesL s) : a ∈ s :=
  (List.dropWhile_suffix isPySpace).subset h

theorem mem_of_matchLit {a : Char} {l s r : List Char} (h : matchLit l s = some r)
    (ha : a ∈ r) : a ∈ s := by
  rw [matchLit_shape l s r h]
  exact List.mem_append_right l ha

theorem mem_of_matchSpaces1 {a : Char} {s r : List Char} (h : matchSpaces1 s = some r)
    (ha : a ∈ r) : a ∈ s := by
  cases s with
  | nil => simp [matchSpaces1] at h
  | cons c cs =>
    simp only [matchSpaces1] at h
    by_cases hc : isPySpace c = true
    · simp only [if_pos hc, Option.some_inj] at h
      subst h
      exact List.mem_cons_of_mem c (mem_of_dropSpacesL ha)
    · simp [hc] at h

theorem matchKwOpen_mem_eq {s r : List Char} (h : matchKwOpen s = some r) : '=' ∈ s := by
  unfold matchKwOpen at h
  obtain ⟨s1, h1, h⟩ := bind_some_elim h
  obtain ⟨s2, h2, h⟩ := bind_some_elim h
  obtain ⟨s3, h3, h⟩ := bind_some_elim h
  obtain ⟨s4, h4, h⟩ := bind_some_elim h
  obtain ⟨s5, h5, h⟩ := bind_some_elim h
  obtain ⟨s6, h6, _⟩ := bind_some_elim h
  have m6 : '=' ∈ dropSpacesL s5 := by
    rw [matchLit_shape _ _ _ h6]; simp
  have m5 : '=' ∈ s5 := mem_of_dropSpacesL m6
  have m5' : '=' ∈ dropSpacesL s4 := by
    rw [matchLit_shape _ _ _ h5]; simp [m5]
  have m4 : '=' ∈ s4 := mem_of_dropSpacesL m5'
  have m4' : '=' ∈ dropSpacesL s3 := by
    rw [matchLit_shape _ _ _ h4]; simp [m4]
  have m3 : '=' ∈ s3 := mem_of_dropSpacesL m4'
  have m2 : '=' ∈ s2 := mem_of_matchLit h3 m3
  have m1 : '=' ∈ s1 := mem_of_matchSpaces1 h2 m2
  exact mem_of_matchLit h1 m1

theorem matchKw_mem_eq {s : List Char} {p : List Char × List Char}
    (h : matchKw s = some p) : '=' ∈ s := by
  unfold matchKw at h
  obtain ⟨r1, h1, _⟩ := bind_some_elim h
  exact matchKwOpen_mem_eq h1

theorem scanKw_nil_of_no_eq : ∀ (s : List Char), '=' ∉ s → scanKw s = [] := by
  intro s
  induction s with
  | nil => intro _; rfl
  | cons c cs ih =>
    intro h
    cases hm : matchKw (c :: cs) with
    | some p => exact absurd (matchKw_mem_eq hm) h
    | none =>
      rw [scanKw_cons_none hm]
      exact ih fun hc => h (List.mem_cons_of_mem c hc)

theorem no_eq_posBlock {t : List Char} (h : '=' ∉ t) : '=' ∉ posBlockChars t := by
  intro hmem
  have hshape : posBlockChars t =
      "with self.voiceover(".toList ++
        '"' :: (t ++ '"' :: (") as tracker:".toList ++ ['\n'])) := by
    simp [posBlockChars]
  rw [hshape] at hmem
  rcases List.mem_append.mp hmem with h1 | h1
  · revert h1; decide
  · rcases List.mem_cons.mp h1 with h2 | h2
    · exact absurd h2 (by decide)
    · rcases List.mem_append.mp h2 with h3 | h3
      · exact h h3
      · rcases List.mem_cons.mp h3 with h4 | h4
        · exact absurd h4 (by decide)
        · revert h4; decide

theorem no_eq_renderPosChars :
    ∀ (ts : List (List Char)), (∀ t ∈ ts, '=' ∉ t) → '=' ∉ renderPosChars ts := by
  intro ts
  induction ts with
  | nil => intro _; simp [renderPosChars]
  | cons t ts ih =>
    intro h hmem
    have hshape : renderPosChars (t :: ts) = posBlockChars t ++ renderPosChars ts := by
      simp [renderPosChars]
    rw [hshape] at hmem
    rcases List.mem_append.mp hmem with hb | hrest
    · exact no_eq_posBlock (h t (List.mem_cons_self t ts)) hb
    · exact ih (fun x hx => h x (List.mem_cons_of_mem t hx)) hrest

theorem stripFilter_id :
    ∀ (ts : List (List Char)), (∀ t ∈ ts, pyStrip t = t ∧ t ≠ []) →
      ((ts.map pyStrip).filter fun n => !n.isEmpty) = ts := by
  intro ts
  induction ts with
  | nil => intro _; rfl
  | cons t ts ih =>
    intro h
    obtain ⟨hs, hne⟩ := h t (List.mem_cons_self t ts)
    have hemp : t.isEmpty = false := by
      cases t with
      | nil => exact absurd rfl hne
      | cons a as => rfl
    simp [List.filter_cons, hs, hemp, ih fun x hx => h x (List.mem_cons_of_mem t hx)]

/-! ### Narration extraction round-trip (claim C7) -/

theorem extractNarrations_renderKw (ts : List (List Char))
    (h : ∀ t ∈ ts, t ≠ [] ∧ '"' ∉ t ∧ pyStrip t = t) :
    extractNarrations (renderKwChars ts) = ts := by
  have hscan : scanKw (renderKwChars ts) = ts := by
    have h2 := scanKw_renderKw ts [] fun t ht => ⟨(h t ht).1, (h t ht).2.1⟩
    have h3 : scanKw ([] : List Char) = [] := rfl
    rw [List.append_nil, h3, List.append_nil] at h2
    exact h2
  cases ts with
  | nil => rfl
  | cons t ts' =>
    have hraw : rawNarrations (renderKwChars (t :: ts')) = t :: ts' := by
      unfold rawNarrations
      simp [hscan]
    unfold extractNarrations
    rw [hraw]
    exact stripFilter_id _ fun x hx => ⟨(h x hx).2.2, (h x hx).1⟩

theorem extractNarrations_renderPos (ts : List (List Char))
    (h : ∀ t ∈ ts, t ≠ [] ∧ '"' ∉ t ∧ pyStrip t = t ∧ '=' ∉ t) :
    extractNarrations (renderPosChars ts) = ts := by
  have hkw : scanKw (renderPosChars ts) = [] :=
    scanKw_nil_of_no_eq _ (no_eq_renderPosChars ts fun t ht => (h t ht).2.2.2)
  have hpos : scanPos (renderPosChars ts) = ts := by
    have h2 := scanPos_renderPos ts [] fun t ht => ⟨(h t ht).1, (h t ht).2.1⟩
    have h3 : scanPos ([] : List Char) = [] := rfl
    rw [List.append_nil, h3, List.append_nil] at h2
    exact h2
  have hraw : rawNarrations (renderPosChars ts) = ts := by
    unfold rawNarrations
    simp [hkw, hpos]
  unfold extractNarrations
  rw [hraw]
  exact stripFilter_id _ fun x hx => ⟨(h x hx).2.2.1, (h x hx).1⟩

theorem extractNarrations_mixed (ts1 ts2 : List (List Char)) (h0 : ts1 ≠ [])
    (h1 : ∀ t ∈ ts1, t ≠ [] ∧ '"' ∉ t ∧ pyStrip t = t)
    (h2 : ∀ t ∈ ts2, '=' ∉ t) :
    extractNarrations (renderKwChars ts1 ++ renderPosChars ts2) = ts1 := by
  have hscan : scanKw (renderKwChars ts1 ++ renderPosChars ts2) = ts1 := by
    rw [scanKw_renderKw ts1 _ fun t ht => ⟨(h1 t ht).1, (h1 t ht).2.1⟩,
      scanKw_nil_of_no_eq _ (no_eq_renderPosChars ts2 h2), List.append_nil]
  have hraw : rawNarrations (renderKwChars ts1 ++ renderPosChars ts2) = ts1 := by
    unfold rawNarrations
    simp [hscan, h0]
  unfold extractNarrations
  rw [hraw]
  exact stripFilter_id _ fun x hx => ⟨(h1 x hx).2.2, (h1 x hx).1⟩

theorem string_mk_toList (s : String) : String.mk s.toList = s := by
  cases s
  rfl

theorem map_mk_map_toList (ts : List String) :
    (ts.map String.toList).map String.mk = ts := by
  induction ts with
  | nil => rfl
  | cons t ts ih => simp [ih, string_mk_toList]

/-- C7 (amended).  Narration-line extraction round-trips with the narration
blocks of the source when all blocks use a single form: for a source made of
keyword-form blocks it recovers exactly the literal texts in source order,
and likewise for a source made only of positional-form blocks; but when both
forms appear in one source, only the keyword-form texts are recovered and
every positional block is dropped (third conjunct; the positional texts must
not contain `=` or a quote so that they cannot themselves complete a
keyword-form match).  Texts are assumed nonempty, quote-free and stripped,
as extraction strips captures and discards empties. -/
theorem c7_roundtrip :
    (∀ ts : List String, (∀ t ∈ ts, goodText t) →
      extractNarrationLines (renderKw ts) = ts) ∧
    (∀ ts : List String, (∀ t ∈ ts, goodText t ∧ '=' ∉ t.toList) →
      extractNarrationLines (renderPos ts) = ts) ∧
    (∀ ts1 ts2 : List String, ts1 ≠ [] →
      (∀ t ∈ ts1, goodText t) → (∀ t ∈ ts2, '=' ∉ t.toList) →
      extractNarrationLines (renderKw ts1 ++ renderPos ts2) = ts1) := by
  refine ⟨?_, ?_, ?_⟩
  · intro ts h
    show (extractNarrations (renderKwChars (ts.map String.toList))).map String.mk = ts
    rw [extractNarrations_renderKw _ ?_]
    · exact map_mk_map_toList ts
    · intro l hl
      obtain ⟨t, ht, rfl⟩ := List.mem_map.mp hl
      exact ⟨(h t ht).1, (h t ht).2.1, (h t ht).2.2⟩
  · intro ts h
    show (extractNarrations (renderPosChars (ts.map String.toList))).map String.mk = ts
    rw [extractNarrations_renderPos _ ?_]
    · exact map_mk_map_toList ts
    · intro l hl
      obtain ⟨t, ht, rfl⟩ := List.mem_map.mp hl
      exact ⟨(h t ht).1.1, (h t ht).1.2.1, (h t ht).1.2.2, (h t ht).2⟩
  · intro ts1 ts2 h0 h1 h2
    show (extractNarrations ((renderKw ts1 ++ renderPos ts2).toList)).map String.mk = ts1
    have htl : (renderKw ts1 ++ renderPos ts2).toList =
        renderKwChars (ts1.map String.toList) ++ renderPosChars (ts2.map String.toList) := by
      simp [renderKw, renderPos, String.toList]
    rw [htl, extractNarrations_mixed _ _ ?_ ?_ ?_]
    · exact map_mk_map_toList ts1
    · intro he
      exact h0 (by simpa using congrArg (List.map String.mk) he)
    · intro l hl
      obtain ⟨t, ht, rfl⟩ := List.mem_map.mp hl
      exact ⟨(h1 t ht).1, (h1 t ht).2.1, (h1 t ht).2.2⟩
    · intro l hl
      obtain ⟨t, ht, rfl⟩ := List.mem_map.mp hl
      exact h2 t ht

/-- C7 witness: the keyword-form round-trip evaluated at two concrete
narration texts. -/
theorem c7_roundtrip_witness :
    extractNarrationLines (renderKw ["Queries and keys", "Softmax weights"]) =
      ["Queries and keys", "Softmax weights"] :=
  c7_roundtrip.1 ["Queries and keys", "Softmax weights"] (by decide)

/-- C7 counterexample: with one keyword-form and one positional-form block
in the same source, extraction returns only the keyword-form text, not the
literal texts of all recognized narration blocks in source order as the
claim states. -/
theorem c7_counterexample :
    extractNarrationLines mixedFormsCode = ["Alpha beta"] ∧
    voiceoverBlockTexts mixedFormsCode = ["Alpha beta", "Gamma delta"] ∧
    extractNarrationLines mixedFormsCode ≠ voiceoverBlockTexts mixedFormsCode := by
  refine ⟨by decide, by decide, by decide⟩


/-! ### Pipeline retry-loop facts (claims C1–C6) -/

set_option maxHeartbeats 1000000

theorem runAttempt_spec {cfg : PipelineConfig} {or : Oracles} {attempt : Nat}
    {st : LoopState} {r : AttemptRecord} {st' : LoopState}
    (h : runAttempt cfg or attempt st = .ok (r, st')) :
    r.stateBefore = st ∧ st' = updState st r ∧
    r.feedbackUsed = (if attempt == 0 then none else some (combinedFeedback st)) ∧
    (r.spatOut.isSome → structPassedR r = true) ∧
    (r.voiceOut.isSome → structPassedR r = true ∧ spatialFailedR r = false) ∧
    (r.rendOut.isSome → structPassedR r = true ∧ spatialFailedR r = false ∧
      voiceFailedR r = false) ∧
    (voiceoverEnabledForGeneration cfg = false → r.voiceOut = none) ∧
    (r.succeeded = false → r.storedCode.code =
      if r.voiceOut.isSome then r.valOut.code else r.generated.code) := by
  unfold runAttempt at h
  simp only [] at h
  repeat' split at h
  all_goals first
    | (exfalso; exact Except.noConfusion h)
    | (rw [Except.ok.injEq, Prod.mk.injEq] at h
       obtain ⟨h1, h2⟩ := h
       subst h1
       subst h2
       refine ⟨rfl, rfl, ?_, ?_, ?_, ?_, ?_, ?_⟩)
  all_goals simp_all [structPassedR, spatialFailedR, voiceFailedR,
    voiceoverEnabledForGeneration]

theorem ok_triple_elim {ε α β γ : Type} {a a' : α} {b b' : β} {c c' : γ}
    (h : (Except.ok (a, b, c) : Except ε (α × β × γ)) = .ok (a', b', c')) :
    a = a' ∧ b = b' ∧ c = c' := by
  rw [Except.ok.injEq, Prod.mk.injEq, Prod.mk.injEq] at h
  exact h

theorem runLoop_records (cfg : PipelineConfig) (or : Oracles) :
    ∀ (fuel attempt : Nat) (st : LoopState) (recs : List AttemptRecord)
      (st' : LoopState) (b : Bool),
      runLoop cfg or attempt fuel st = .ok (recs, st', b) →
      ∀ r ∈ recs,
        (r.spatOut.isSome → structPassedR r = true) ∧
        (r.voiceOut.isSome → structPassedR r = true ∧ spatialFailedR r = false) ∧
        (r.rendOut.isSome → structPassedR r = true ∧ spatialFailedR r = false ∧
          voiceFailedR r = false) ∧
        (voiceoverEnabledForGeneration cfg = false → r.voiceOut = none) ∧
        (r.succeeded = false → r.storedCode.code =
          if r.voiceOut.isSome then r.valOut.code else r.generated.code) := by
  intro fuel
  induction fuel with
  | zero =>
    intro attempt st recs st' b h r hr
    simp only [runLoop] at h
    obtain ⟨h1, h2, h3⟩ := ok_triple_elim h
    subst h1
    simp at hr
  | succ fuel ih =>
    intro attempt st recs st' b h r hr
    simp only [runLoop] at h
    cases hra : runAttempt cfg or attempt st with
    | error e =>
      rw [hra] at h
      exact Except.noConfusion h
    | ok p =>
      obtain ⟨r0, st0⟩ := p
      rw [hra] at h
      simp only [] at h
      by_cases hs : r0.succeeded = true
      · rw [if_pos hs] at h
        obtain ⟨h1, h2, h3⟩ := ok_triple_elim h
        subst h1
        have hr0 : r = r0 := by simpa using hr
        subst hr0
        have spec := runAttempt_spec hra
        exact ⟨spec.2.2.2.1, spec.2.2.2.2.1, spec.2.2.2.2.2.1, spec.2.2.2.2.2.2.1,
          spec.2.2.2.2.2.2.2⟩
      · rw [if_neg hs] at h
        cases hrl : runLoop cfg or (attempt + 1) fuel st0 with
        | error e =>
          rw [hrl] at h
          exact Except.noConfusion h
        | ok q =>
          obtain ⟨rs, st2, b2⟩ := q
          rw [hrl] at h
          simp only [] at h
          obtain ⟨h1, h2, h3⟩ := ok_triple_elim h
          subst h1
          rcases List.mem_cons.mp hr with hr0 | hrs
          · subst hr0
            have spec := runAttempt_spec hra
            exact ⟨spec.2.2.2.1, spec.2.2.2.2.1, spec.2.2.2.2.2.1, spec.2.2.2.2.2.2.1,
              spec.2.2.2.2.2.2.2⟩
          · exact ih (attempt + 1) st0 rs st2 b2 hrl r hrs

theorem runLoop_trace (cfg : PipelineConfig) (or : Oracles) :
    ∀ (fuel attempt : Nat) (st : LoopState) (recs : List AttemptRecord)
      (st' : LoopState) (b : Bool),
      runLoop cfg or attempt fuel st = .ok (recs, st', b) →
      st' = recs.foldl updState st ∧
      (b = false → ∀ r ∈ recs, r.succeeded = false) ∧
      (∀ (j : Nat) (r : AttemptRecord), recs.get? j = some r →
        r.stateBefore = (recs.take j).foldl updState st ∧
        r.feedbackUsed =
          (if attempt + j == 0 then none else some (combinedFeedback r.stateBefore))) := by
  intro fuel
  induction fuel with
  | zero =>
    intro attempt st recs st' b h
    simp only [runLoop] at h
    obtain ⟨h1, h2, h3⟩ := ok_triple_elim h
    subst h1
    subst h2
    refine ⟨rfl, fun _ r hr => by simp at hr, fun j r hj => by simp at hj⟩
  | succ fuel ih =>
    intro attempt st recs st' b h
    simp only [runLoop] at h
    cases hra : runAttempt cfg or attempt st with
    | error e =>
      rw [hra] at h
      exact Except.noConfusion h
    | ok p =>
      obtain ⟨r0, st0⟩ := p
      rw [hra] at h
      simp only [] at h
      have spec := runAttempt_spec hra
      by_cases hs : r0.succeeded = true
      · rw [if_pos hs] at h
        obtain ⟨h1, h2, h3⟩ := ok_triple_elim h
        subst h1
        subst h2
        subst h3
        refine ⟨by simp [spec.2.1], fun hb => by simp at hb, ?_⟩
        intro j r hj
        cases j with
        | zero =>
          simp only [List.get?] at hj
          cases hj
          refine ⟨by simpa using spec.1, ?_⟩
          rw [spec.1]
          simpa using spec.2.2.1
        | succ j => simp at hj
      · rw [if_neg hs] at h
        cases hrl : runLoop cfg or (attempt + 1) fuel st0 with
        | error e =>
          rw [hrl] at h
          exact Except.noConfusion h
        | ok q =>
          obtain ⟨rs, st2, b2⟩ := q
          rw [hrl] at h
          simp only [] at h
          obtain ⟨h1, h2, h3⟩ := ok_triple_elim h
          subst h1
          subst h2
          subst h3
          obtain ⟨ihst, ihb, ihj⟩ := ih (attempt + 1) st0 rs st2 b2 hrl
          refine ⟨?_, ?_, ?_⟩
          · rw [List.foldl_cons, ← spec.2.1]
            exact ihst
          · intro hb r hr
            rcases List.mem_cons.mp hr with hr0 | hrs
            · subst hr0
              simpa using hs
            · exact ihb hb r hrs
          · intro j r hj
            cases j with
            | zero =>
              simp only [List.get?] at hj
              cases hj
              refine ⟨by simpa using spec.1, ?_⟩
              rw [spec.1]
              simpa using spec.2.2.1
            | succ j =>
              simp only [List.get?] at hj
              obtain ⟨ih1, ih2⟩ := ihj j r hj
              constructor
              · rw [List.take_succ_cons, List.foldl_cons, ← spec.2.1]
                exact ih1
              · rw [ih2]
                have : (attempt + 1 + j == 0) = (attempt + (j + 1) == 0) := by
                  have : attempt + 1 + j = attempt + (j + 1) := by omega
                  rw [this]
                rw [this]

theorem findSome?_singleton {α β : Type} (f : α → Option β) (a : α) :
    List.findSome? f [a] = f a := by
  cases h : f a <;> simp [List.findSome?, h]

theorem foldl_updState_validation (recs : List AttemptRecord) :
    ∀ st : LoopState,
      (recs.foldl updState st).validation = (latestVal recs).or st.validation := by
  induction recs with
  | nil => intro st; simp [latestVal]
  | cons r rs ih =>
    intro st
    rw [List.foldl_cons, ih]
    unfold latestVal
    rw [List.reverse_cons, List.findSome?_append, findSome?_singleton]
    simp [updState, Option.or_assoc]

theorem foldl_updState_spatial (recs : List AttemptRecord) :
    ∀ st : LoopState,
      (recs.foldl updState st).spatialResult = (latestSpat recs).or st.spatialResult := by
  induction recs with
  | nil => intro st; simp [latestSpat]
  | cons r rs ih =>
    intro st
    rw [List.foldl_cons, ih]
    unfold latestSpat
    rw [List.reverse_cons, List.findSome?_append, findSome?_singleton]
    simp [updState, Option.or_assoc]

theorem foldl_updState_voice (recs : List AttemptRecord) :
    ∀ st : LoopState,
      (recs.foldl updState st).voiceResult = (latestVoice recs).or st.voiceResult := by
  induction recs with
  | nil => intro st; simp [latestVoice]
  | cons r rs ih =>
    intro st
    rw [List.foldl_cons, ih]
    unfold latestVoice
    rw [List.reverse_cons, List.findSome?_append, findSome?_singleton]
    simp [updState, Option.or_assoc]

theorem foldl_updState_render (recs : List AttemptRecord) :
    ∀ st : LoopState,
      (recs.foldl updState st).renderResult = (latestRend recs).or st.renderResult := by
  induction recs with
  | nil => intro st; simp [latestRend]
  | cons r rs ih =>
    intro st
    rw [List.foldl_cons, ih]
    unfold latestRend
    rw [List.reverse_cons, List.findSome?_append, findSome?_singleton]
    simp [updState, Option.or_assoc]

theorem foldl_updState_code (recs : List AttemptRecord) :
    ∀ st : LoopState,
      (recs.foldl updState st).codeResult = (latestStored recs).or st.codeResult := by
  induction recs with
  | nil => intro st; simp [latestStored]
  | cons r rs ih =>
    intro st
    rw [List.foldl_cons, ih]
    unfold latestStored
    rw [List.reverse_cons, List.findSome?_append, findSome?_singleton]
    simp [updState, Option.or_assoc]

theorem combinedFeedback_foldl (recs : List AttemptRecord) :
    combinedFeedback (recs.foldl updState initialState) =
      feedbackOf (latestVal recs) (latestSpat recs) (latestVoice recs) (latestRend recs) := by
  unfold combinedFeedback
  rw [foldl_updState_validation, foldl_updState_spatial, foldl_updState_voice,
    foldl_updState_render]
  simp [initialState]

theorem latestVal_take_last {recs : List AttemptRecord} {i : Nat} {rp : AttemptRecord}
    (h : recs.get? i = some rp) : latestVal (recs.take (i + 1)) = some rp.valOut := by
  have h' : recs[i]? = some rp := by
    rwa [← List.get?_eq_getElem?]
  have ht : recs.take (i + 1) = recs.take i ++ [rp] := by
    rw [List.take_succ, h']
    rfl
  rw [ht]
  unfold latestVal
  rw [List.reverse_append, List.reverse_singleton, List.singleton_append,
    List.findSome?_cons]

theorem findSome?_some_comp {α β : Type} (g : α → β) :
    ∀ l : List α, List.findSome? (fun x => some (g x)) l = l.head?.map g := by
  intro l
  cases l <;> simp [List.findSome?]

theorem latestStored_getLast {recs : List AttemptRecord} {r : AttemptRecord}
    (h : recs.getLast? = some r) : latestStored recs = some r.storedCode := by
  unfold latestStored
  rw [findSome?_some_comp, List.head?_reverse, h]
  rfl

/-- C2 (amended).  On every retry attempt i ≥ 1, the feedback passed to the
generator's feedback-mode entry point is the concatenation, in gate order,
of the issue blocks of each gate's most recently recorded result over
attempts 0..i−1 — not only of the gates that ran during attempt i−1.  The
structural block is always attempt i−1's (that gate runs every attempt, by
the second conjunct); spatial, narration and render blocks may be stale
results of an earlier attempt when their gate was short-circuited in
attempt i−1. -/
theorem c2_feedback_latest (cfg : PipelineConfig) (or : Oracles) (fuel : Nat)
    (recs : List AttemptRecord) (st' : LoopState) (b : Bool)
    (hrun : runLoop cfg or 0 fuel initialState = .ok (recs, st', b))
    (i : Nat) (r : AttemptRecord) (hr : recs.get? (i + 1) = some r) :
    r.feedbackUsed = some (feedbackOf (latestVal (recs.take (i + 1)))
      (latestSpat (recs.take (i + 1))) (latestVoice (recs.take (i + 1)))
      (latestRend (recs.take (i + 1)))) ∧
    (∀ rp, recs.get? i = some rp → latestVal (recs.take (i + 1)) = some rp.valOut) := by
  obtain ⟨_, _, hjs⟩ := runLoop_trace cfg or fuel 0 initialState recs st' b hrun
  obtain ⟨hsb, hfb⟩ := hjs (i + 1) r hr
  constructor
  · rw [hfb, if_neg (by simp), hsb, combinedFeedback_foldl]
  · intro rp hrp
    exact latestVal_take_last hrp

/-- C3.  Within any single attempt of the retry loop, gates run strictly in
the order structural → spatial → narration → render: the spatial validator
only runs when structural validation passed that attempt; the narration
validator only runs when structural passed and spatial did not fail that
attempt; the render tester only runs when no earlier gate failed that
attempt. -/
theorem c3_gate_order (cfg : PipelineConfig) (or : Oracles) (fuel attempt : Nat)
    (st : LoopState) (recs : List AttemptRecord) (st' : LoopState) (b : Bool)
    (h : runLoop cfg or attempt fuel st = .ok (recs, st', b)) (r : AttemptRecord)
    (hr : r ∈ recs) :
    (r.spatOut.isSome → structPassedR r = true) ∧
    (r.voiceOut.isSome → structPassedR r = true ∧ spatialFailedR r = false) ∧
    (r.rendOut.isSome → structPassedR r = true ∧ spatialFailedR r = false ∧
      voiceFailedR r = false) := by
  obtain ⟨p1, p2, p3, _, _⟩ := runLoop_records cfg or fuel attempt st recs st' b h r hr
  exact ⟨p1, p2, p3⟩

/-- C3 witness: the gate-order theorem evaluated on a concrete one-attempt
run. -/
theorem c3_gate_order_witness :
    (oneShotRec.spatOut.isSome → structPassedR oneShotRec = true) ∧
    (oneShotRec.voiceOut.isSome → structPassedR oneShotRec = true ∧
      spatialFailedR oneShotRec = false) ∧
    (oneShotRec.rendOut.isSome → structPassedR oneShotRec = true ∧
      spatialFailedR oneShotRec = false ∧ voiceFailedR oneShotRec = false) :=
  c3_gate_order dropCfgNoVoice (goodOracles "v" "X") 1 0 initialState [oneShotRec]
    (updState initialState oneShotRec) true rfl oneShotRec (List.mem_singleton_self _)

/-- C5.  When narration (voiceover) mode is disabled, the attempt budget is
exactly `MAX_RETRIES` with no `VOICE_QUALITY_RETRIES` allowance, and the
narration quality gate is never invoked on any attempt of any run. -/
theorem c5_budget_voice_gate (cfg : PipelineConfig)
    (h : voiceoverEnabledForGeneration cfg = false) :
    maxAttempts cfg = cfg.maxRetries ∧
    (∀ (or : Oracles) (fuel attempt : Nat) (st : LoopState) (recs : List AttemptRecord)
      (st' : LoopState) (b : Bool),
      runLoop cfg or attempt fuel st = .ok (recs, st', b) →
      ∀ r ∈ recs, r.voiceOut = none) := by
  constructor
  · unfold maxAttempts
    rw [h]
    simp
  · intro or fuel attempt st recs st' b hrun r hr
    exact (runLoop_records cfg or fuel attempt st recs st' b hrun r hr).2.2.2.1 h

/-- C5 witness: evaluated at a configuration with voiceover disabled and a
concrete one-attempt run. -/
theorem c5_budget_voice_gate_witness :
    maxAttempts dropCfgNoVoice = dropCfgNoVoice.maxRetries ∧
    oneShotRec.voiceOut = none :=
  ⟨(c5_budget_voice_gate dropCfgNoVoice rfl).1,
   (c5_budget_voice_gate dropCfgNoVoice rfl).2 (goodOracles "v" "X") 1 0 initialState
     [oneShotRec] (updState initialState oneShotRec) true rfl oneShotRec
     (List.mem_singleton_self _)⟩

/-- C6 (amended).  Under the `return_silent` policy, budget exhaustion after
at least one attempt yields a non-null `Visualization` with status
`pending` whose `manim_code` is the `code_result` stored by the last
attempt; that stored code equals the structural validator's (possibly
auto-fix rewritten) output when the last attempt reached the narration
gate, and the raw generated code otherwise — not always "the code produced
by the last generation attempt" as the claim states. -/
theorem c6_silent_pending (cfg : PipelineConfig) (or : Oracles)
    (cand : VisualizationCandidate) (plan : VisualizationPlan)
    (recs : List AttemptRecord) (st' : LoopState) (r : AttemptRecord)
    (hb : cfg.voiceFailBehavior = .return_silent)
    (hp : or.planner = .ok plan)
    (hrun : runLoop cfg or 0 (maxAttempts cfg) initialState = .ok (recs, st', false))
    (hlast : recs.getLast? = some r) :
    generateSingleVisualization cfg or cand = some
      { id := or.vizId, section_id := cand.section_id, concept := cand.concept_name,
        storyboard := plan.dumpJson, manim_code := r.storedCode.code, video_url := none,
        status := .pending } ∧
    r.storedCode.code =
      (if r.voiceOut.isSome then r.valOut.code else r.generated.code) := by
  have hmem : r ∈ recs := List.mem_of_mem_getLast? hlast
  obtain ⟨hst, hsucc, _⟩ :=
    runLoop_trace cfg or (maxAttempts cfg) 0 initialState recs st' false hrun
  have hcode : st'.codeResult = some r.storedCode := by
    rw [hst, foldl_updState_code, latestStored_getLast hlast]
    rfl
  have hsf : r.succeeded = false := hsucc rfl r hmem
  have hform :=
    (runLoop_records cfg or (maxAttempts cfg) 0 initialState recs st' false hrun r hmem).2.2.2.2 hsf
  refine ⟨?_, hform⟩
  unfold generateSingleVisualization generateSingleExc
  rw [hp]
  simp only []
  rw [hrun]
  simp only [hb, hcode]
  simp

/-- C1.  Under the `hard_error` failure policy with an exhausted budget, the
`RuntimeError` raised at pipeline.py line 425 is caught by the function's own
blanket `except Exception` handler (lines 459–461): the per-candidate call
returns `None` instead of propagating the exception, contradicting the claim
(and the spec's stated intent) that the hard-error policy aborts the
paper-level run.  The first conjunct shows the raise happens inside the
`try:` body; the second shows the caller still receives `None`. -/
theorem c1_hard_error_swallowed :
    generateSingleExc hardErrorCfg alwaysFailOracles candAttention =
      .error (.runtimeError "Strict quality checks failed for Attention") ∧
    generateSingleVisualization hardErrorCfg alwaysFailOracles candAttention = none :=
  ⟨rfl, rfl⟩

/-- C2 witness: the amended theorem evaluated on a concrete run whose first
attempt fails the render test. -/
theorem c2_feedback_latest_witness :
    retryRec1.feedbackUsed = some (feedbackOf (latestVal [retryRec0])
      (latestSpat [retryRec0]) (latestVoice [retryRec0]) (latestRend [retryRec0])) :=
  (c2_feedback_latest dropCfgNoVoice retryOracles 3 [retryRec0, retryRec1]
    (updState (updState initialState retryRec0) retryRec1) true rfl 0 retryRec1 rfl).1

/-- C2 counterexample.  Attempt 0 passes structure but fails the render
test; attempt 1 fails structure, so the render tester does not run (second
conjunct, middle entry).  Yet the feedback passed to attempt 2 contains the
render block recorded at attempt 0 next to attempt 1's structural issues —
it is not the concatenation of only the issue lists of the gates that
executed during attempt 1, refuting the claim as stated. -/
theorem c2_counterexample :
    stagedRecords.map AttemptRecord.feedbackUsed =
      [none, some (.combined [.render renderBoom]),
       some (.combined [.structural ["SyntaxError: invalid syntax"], .render renderBoom])] ∧
    stagedRecords.map (fun r => r.rendOut.isSome) = [true, false, true] ∧
    FeedbackMsg.combined [.structural ["SyntaxError: invalid syntax"], .render renderBoom] ≠
      FeedbackMsg.combined [.structural ["SyntaxError: invalid syntax"]] :=
  ⟨rfl, rfl, by decide⟩

theorem gatherCollect_acc (results : List (Except Exc (Option Visualization))) :
    ∀ acc : List Visualization,
      results.foldl
        (fun acc r =>
          match r with
          | .error _ => acc
          | .ok none => acc
          | .ok (some v) => acc ++ [v]) acc =
      acc ++ results.filterMap
        (fun r => match r with | .ok (some v) => some v | _ => none) := by
  induction results with
  | nil => intro acc; simp
  | cons r rs ih =>
    intro acc
    rw [List.foldl_cons, ih]
    cases r with
    | error e => simp [List.filterMap_cons]
    | ok v =>
      cases v with
      | none => simp [List.filterMap_cons]
      | some x => simp [List.filterMap_cons]

/-- C4.  The paper-level phase collects exactly the artifacts of the
candidates whose per-candidate call produced one (first conjunct: the
gather-and-filter equals a filterMap, so a failing candidate is simply
absent and its siblings are unaffected), and a transport exception raised by
the generator never escapes the per-candidate call — that call returns
`None` (second conjunct).  `generateSingleVisualization` is a total
function, so no exception escapes the paper-level entry point. -/
theorem c4_partial_failure_isolation :
    (∀ (cfg : PipelineConfig) (oraclesOf : VisualizationCandidate → Oracles)
      (cands : List VisualizationCandidate) (maxViz : Nat),
      generateVisualizationsModel cfg oraclesOf cands maxViz =
        (sortAndCap cands maxViz).filterMap fun c =>
          generateSingleVisualization cfg (oraclesOf c) c) ∧
    (∀ (cfg : PipelineConfig) (or : Oracles) (cand : VisualizationCandidate) (e : Exc),
      or.genRun = .error e → generateSingleVisualization cfg or cand = none) := by
  constructor
  · intro cfg oraclesOf cands maxViz
    unfold generateVisualizationsModel gatherCollect
    rw [gatherCollect_acc, List.nil_append, List.filterMap_map]
    congr 1
    funext c
    cases hgen : generateSingleVisualization cfg (oraclesOf c) c with
    | none => simp [hgen, Function.comp]
    | some v => simp [hgen, Function.comp]
  · intro cfg or cand e h
    unfold generateSingleVisualization generateSingleExc
    cases hp : or.planner with
    | error e2 => rfl
    | ok plan =>
      cases hm : maxAttempts cfg with
      | zero =>
        simp only [runLoop]
        cases hb : cfg.voiceFailBehavior <;> simp [initialState]
      | succ n =>
        have hra : runAttempt cfg or 0 initialState = .error e := by
          unfold runAttempt
          simp [h]
        simp only [runLoop, hra]

/-- C4 witness: three sibling candidates, the generator of one raising a
transport exception. -/
theorem c4_partial_failure_isolation_witness :
    generateVisualizationsModel {} siblingOraclesOf [candB, candA, candC] 5 =
      (sortAndCap [candB, candA, candC] 5).filterMap (fun c =>
        generateSingleVisualization {} (siblingOraclesOf c) c) ∧
    generateSingleVisualization {} transportFailOracles candB = none :=
  ⟨c4_partial_failure_isolation.1 {} siblingOraclesOf [candB, candA, candC] 5,
   c4_partial_failure_isolation.2 {} transportFailOracles candB
     (.external "ConnectionError") rfl⟩

/-- C6 witness: the amended theorem evaluated on a one-attempt silent-policy
run whose narration gate rejects. -/
theorem c6_silent_pending_witness :
    generateSingleVisualization silentCfgSmall silentOracles candAttention = some
      { id := silentOracles.vizId, section_id := candAttention.section_id,
        concept := candAttention.concept_name, storyboard := planA.dumpJson,
        manim_code := silentRec.storedCode.code, video_url := none,
        status := .pending } ∧
    silentRec.storedCode.code =
      (if silentRec.voiceOut.isSome then silentRec.valOut.code
       else silentRec.generated.code) :=
  c6_silent_pending silentCfgSmall silentOracles candAttention planA [silentRec]
    (updState initialState silentRec) silentRec rfl rfl rfl rfl

/-- C6 counterexample.  Every generation attempt produces code `RAW`; the
structural validator auto-fixes it to `FIXED`; the narration gate rejects
every attempt.  Under the silent policy the emitted artifact's `manim_code`
is `FIXED`, which differs from the code produced by the last generation
attempt (`RAW`), refuting the claim's "whose manim_code equals the code
produced by the last generation attempt" (the pending status and non-null
artifact parts hold). -/
theorem c6_counterexample :
    (generateSingleVisualization silentCfg silentOracles candAttention).map
      Visualization.manim_code = some "FIXED" ∧
    (generateSingleVisualization silentCfg silentOracles candAttention).map
      Visualization.status = some .pending ∧
    silentOracles.genRun = .ok rawGen ∧
    silentOracles.genFeedback 4 "FIXED" (.combined [.voice voiceReject]) = .ok rawGen ∧
    rawGen.code = "RAW" ∧
    ("FIXED" : String) ≠ "RAW" :=
  ⟨rfl, rfl, rfl, rfl, rfl, by decide⟩


/-! ### Narration scoring and validator facts (claims C8–C10) -/

theorem clampQ_mono {x y : ℚ} (h : x ≤ y) : clampQ x ≤ clampQ y :=
  max_le_max le_rfl (min_le_min le_rfl h)

theorem clampQ_le_one (x : ℚ) : clampQ x ≤ 1 :=
  max_le (by norm_num) (min_le_left 1 x)

theorem clampQ_of_one_le {x : ℚ} (h : 1 ≤ x) : clampQ x = 1 := by
  unfold clampQ
  rw [min_eq_left h]
  norm_num

theorem clampQ_nonneg (x : ℚ) : 0 ≤ clampQ x := le_max_left 0 _

/-- Core monotonicity of the heuristic alignment formula, at the level of
the term-set cardinalities: enlarging the term set by `a` anchor terms (of
which `ovd` also overlap the reference set) never lowers the clamped score.
The `0.20 · min 3 anchorHits` gain dominates the possible drop of the
overlap ratio caused by the larger denominator, and once three anchors are
present the raw score exceeds 1 and clamping absorbs any further change. -/
theorem score_arith (n1 ov1 h1 a ovd : ℕ) (hn : 1 ≤ n1) (hov : ov1 ≤ n1) (ha : 1 ≤ a) :
    clampQ (9/20 + (1/5) * ((min 3 h1 : ℕ) : ℚ) +
      (1/4) * ((ov1 : ℚ) / ((max 1 (min 8 n1) : ℕ) : ℚ))) ≤
    clampQ (9/20 + (1/5) * ((min 3 (h1 + a) : ℕ) : ℚ) +
      (1/4) * (((ov1 + ovd : ℕ) : ℚ) / ((max 1 (min 8 (n1 + a)) : ℕ) : ℚ))) := by
  have hd1pos : 0 < max 1 (min 8 n1) := by omega
  have hd2pos : 0 < max 1 (min 8 (n1 + a)) := by omega
  have hd1q : (0 : ℚ) < ((max 1 (min 8 n1) : ℕ) : ℚ) := by exact_mod_cast hd1pos
  have hd2q : (0 : ℚ) < ((max 1 (min 8 (n1 + a)) : ℕ) : ℚ) := by exact_mod_cast hd2pos
  have hr1nonneg : 0 ≤ (ov1 : ℚ) / ((max 1 (min 8 n1) : ℕ) : ℚ) :=
    div_nonneg (by positivity) (le_of_lt hd1q)
  have hr2nonneg : 0 ≤ ((ov1 + ovd : ℕ) : ℚ) / ((max 1 (min 8 (n1 + a)) : ℕ) : ℚ) :=
    div_nonneg (by positivity) (le_of_lt hd2q)
  by_cases h3 : 3 ≤ h1
  · have hm1 : min 3 h1 = 3 := min_eq_left h3
    have hm2 : min 3 (h1 + a) = 3 := min_eq_left (by omega)
    rw [hm1, hm2, clampQ_of_one_le (by rw [Nat.cast_ofNat]; linarith),
      clampQ_of_one_le (by rw [Nat.cast_ofNat]; linarith)]
  · by_cases h1eq2 : 2 ≤ h1
    · have hm2 : min 3 (h1 + a) = 3 := min_eq_left (by omega)
      calc clampQ _ ≤ 1 := clampQ_le_one _
        _ = _ := (clampQ_of_one_le (by rw [hm2, Nat.cast_ofNat]; linarith)).symm
    · -- h1 ≤ 1
      have hm1 : min 3 h1 = h1 := min_eq_right (by omega)
      have hm2ge : h1 + 1 ≤ min 3 (h1 + a) := by omega
      have hgain : ((h1 : ℚ) + 1) ≤ ((min 3 (h1 + a) : ℕ) : ℚ) := by exact_mod_cast hm2ge
      by_cases hn8 : 8 ≤ n1
      · have hd1 : max 1 (min 8 n1) = 8 := by omega
        have hd2 : max 1 (min 8 (n1 + a)) = 8 := by omega
        apply clampQ_mono
        rw [hm1, hd1, hd2]
        have hrr : (ov1 : ℚ) / ((8 : ℕ) : ℚ) ≤ ((ov1 + ovd : ℕ) : ℚ) / ((8 : ℕ) : ℚ) := by
          apply div_le_div_of_nonneg_right ?_ (by norm_num)
          exact_mod_cast Nat.le_add_right ov1 ovd
        linarith
      · have hd1 : max 1 (min 8 n1) = n1 := by omega
        have hn1q : (0 : ℚ) < (n1 : ℚ) := by exact_mod_cast hn
        have hr1le : (ov1 : ℚ) / ((max 1 (min 8 n1) : ℕ) : ℚ) ≤ 1 := by
          rw [hd1]
          rw [div_le_one hn1q]
          exact_mod_cast hov
        by_cases hr45 : (ov1 : ℚ) / ((max 1 (min 8 n1) : ℕ) : ℚ) ≤ 4/5
        · apply clampQ_mono
          rw [hm1]
          linarith
        · push_neg at hr45
          by_cases ha2 : 2 ≤ a
          · have hm2ge2 : h1 + 2 ≤ min 3 (h1 + a) := by omega
            have hgain2 : ((h1 : ℚ) + 2) ≤ ((min 3 (h1 + a) : ℕ) : ℚ) := by
              exact_mod_cast hm2ge2
            apply clampQ_mono
            rw [hm1]
            linarith
          · have ha1 : a = 1 := by omega
            subst ha1
            have hd2 : max 1 (min 8 (n1 + 1)) = n1 + 1 := by omega
            have hr2ge : (ov1 : ℚ) / ((max 1 (min 8 n1) : ℕ) : ℚ) * (1/2) ≤
                ((ov1 + ovd : ℕ) : ℚ) / ((max 1 (min 8 (n1 + 1)) : ℕ) : ℚ) := by
              rw [hd1, hd2]
              push_cast
              rw [div_mul_eq_mul_div, div_le_div_iff₀ hn1q (by positivity)]
              have hovq : (0 : ℚ) ≤ (ov1 : ℚ) := by positivity
              have hovdq : (0 : ℚ) ≤ (ovd : ℚ) := by positivity
              have hn1ge : (1 : ℚ) ≤ (n1 : ℚ) := by exact_mod_cast hn
              nlinarith [mul_nonneg hovdq (le_of_lt hn1q),
                mul_le_mul_of_nonneg_left hn1ge hovq]
            apply clampQ_mono
            rw [hm1]
            linarith

theorem scoreOfTermSets_nonneg (t r : Finset String) : 0 ≤ scoreOfTermSets t r := by
  unfold scoreOfTermSets
  split
  · exact le_refl 0
  · split
    · norm_num
    · exact clampQ_nonneg _

/-- C8.  The heuristic alignment score is monotonic in anchor-term
presence: a narration line whose content-term set adds one or more
domain-anchor terms to another line's term set (all else equal) scores at
least as high. -/
theorem c8_anchor_monotonic (l1 l2 : String) (refTerms : Finset String)
    (A : Finset String) (hA : A ⊆ anchorTerms) (hAne : A.Nonempty)
    (hdisj : Disjoint A (termsOfText l1))
    (hunion : termsOfText l2 = termsOfText l1 ∪ A) :
    ruleAlignmentScore l1 refTerms ≤ ruleAlignmentScore l2 refTerms := by
  unfold ruleAlignmentScore
  rw [hunion]
  by_cases hs1 : termsOfText l1 = ∅
  · rw [show scoreOfTermSets (termsOfText l1) refTerms = 0 from by
      rw [hs1]; simp [scoreOfTermSets]]
    exact scoreOfTermSets_nonneg _ _
  · have hs2 : ¬(termsOfText l1 ∪ A = ∅) := by
      intro hc
      exact hs1 (Finset.union_eq_empty.mp hc).1
    by_cases href : refTerms = ∅
    · unfold scoreOfTermSets
      rw [if_neg hs1, if_neg hs2, if_pos href, if_pos href]
    · unfold scoreOfTermSets
      rw [if_neg hs1, if_neg hs2, if_neg href, if_neg href]
      have hds : Disjoint (termsOfText l1) A := hdisj.symm
      have hcard : (termsOfText l1 ∪ A).card = (termsOfText l1).card + A.card :=
        Finset.card_union_of_disjoint hds
      have hcov : ((termsOfText l1 ∪ A) ∩ refTerms).card =
          (termsOfText l1 ∩ refTerms).card + (A ∩ refTerms).card := by
        rw [Finset.union_inter_distrib_right]
        exact Finset.card_union_of_disjoint
          (hds.mono Finset.inter_subset_left Finset.inter_subset_left)
      have hanch : ((termsOfText l1 ∪ A) ∩ anchorTerms).card =
          (termsOfText l1 ∩ anchorTerms).card + A.card := by
        rw [Finset.union_inter_distrib_right, Finset.inter_eq_left.mpr hA]
        exact Finset.card_union_of_disjoint (hds.mono_left Finset.inter_subset_left)
      rw [hcard, hcov, hanch]
      exact score_arith (termsOfText l1).card (termsOfText l1 ∩ refTerms).card
        (termsOfText l1 ∩ anchorTerms).card A.card (A ∩ refTerms).card
        (Finset.card_pos.mpr (Finset.nonempty_iff_ne_empty.mpr hs1))
        (Finset.card_le_card Finset.inter_subset_left)
        (Finset.card_pos.mpr hAne)

/-- C8 witness: adding the anchor term `attention` to a concrete narration
line. -/
theorem c8_anchor_monotonic_witness :
    ruleAlignmentScore "the gradient flows" (termsOfText "gradient descent") ≤
      ruleAlignmentScore "the gradient flows through attention"
        (termsOfText "gradient descent") :=
  c8_anchor_monotonic "the gradient flows" "the gradient flows through attention"
    (termsOfText "gradient descent") {"attention"} (by decide) (by decide)
    (by decide) (by decide)

theorem validateV_judge_some (v : ValidatorConfig) (gc : GeneratedCode)
    (cand : VisualizationCandidate) (a e : ℚ) (hj : v.useLlmJudge = true)
    (hn : gc.narration_lines ≠ []) :
    validateV v gc cand (some (a, e)) = validateWithScores v gc a e := by
  have hne : gc.narration_lines.isEmpty = false := by
    cases h : gc.narration_lines with
    | nil => exact absurd h hn
    | cons x xs => rfl
  unfold validateV validateWithScores
  simp [hj, hne]

theorem validateV_judge_none (v : ValidatorConfig) (gc : GeneratedCode)
    (cand : VisualizationCandidate) :
    validateV v gc cand none =
      validateWithScores v gc (ruleAlignmentAggregate gc cand)
        (ruleEducationalAggregate v gc) := by
  unfold validateV validateWithScores ruleAlignmentAggregate ruleEducationalAggregate
  cases hc : (v.useLlmJudge && !gc.narration_lines.isEmpty) <;> simp [hc]

theorem alignmentBelow_not_structural (x y : ℚ) (c : String) :
    VIssue.alignmentBelow x y ∉ structuralVIssues c := by
  intro h
  simp only [structuralVIssues, List.mem_append] at h
  rcases h with (h | h) | h <;> split_ifs at h <;> simp at h

theorem educationalBelow_not_structural (x y : ℚ) (c : String) :
    VIssue.educationalBelow x y ∉ structuralVIssues c := by
  intro h
  simp only [structuralVIssues, List.mem_append] at h
  rcases h with (h | h) | h <;> split_ifs at h <;> simp at h

theorem bannedIssues_shape {vi : VIssue} {n : List String} (h : vi ∈ bannedIssues n) :
    ∃ k, vi = .bannedStart k := by
  unfold bannedIssues at h
  obtain ⟨p, _, hsome⟩ := List.mem_filterMap.mp h
  simp only [] at hsome
  split_ifs at hsome
  all_goals first
    | exact Option.noConfusion hsome
    | exact ⟨p.1 + 1, (Option.some_inj.mp hsome).symm⟩

theorem alignmentBelow_not_banned (x y : ℚ) (n : List String) :
    VIssue.alignmentBelow x y ∉ bannedIssues n := by
  intro h
  obtain ⟨k, hk⟩ := bannedIssues_shape h
  exact VIssue.noConfusion hk

theorem educationalBelow_not_banned (x y : ℚ) (n : List String) :
    VIssue.educationalBelow x y ∉ bannedIssues n := by
  intro h
  obtain ⟨k, hk⟩ := bannedIssues_shape h
  exact VIssue.noConfusion hk

theorem clampQ_of_neg {x : ℚ} (h : x < 0) : clampQ x = 0 := by
  unfold clampQ
  rw [min_eq_right (le_of_lt (lt_of_lt_of_le h (by norm_num))), max_eq_left (le_of_lt h)]

/-- C9.  When the LLM judge is consulted and returns valid scores, those
scores fully replace the heuristic rule-based scores: the validator's output
is exactly the output computed from the judge's scores, with the rule
aggregates not entering the threshold comparison (first conjunct, as
`validateWithScores` does not mention the rule scores).  When the judge is
unavailable or returns malformed output (`none`), validation does not fail
on that account: the output is exactly the output computed from the
heuristic aggregates (second conjunct). -/
theorem c9_judge_replaces :
    (∀ (v : ValidatorConfig) (gc : GeneratedCode) (cand : VisualizationCandidate)
       (a e : ℚ), v.useLlmJudge = true → gc.narration_lines ≠ [] →
       validateV v gc cand (some (a, e)) = validateWithScores v gc a e) ∧
    (∀ (v : ValidatorConfig) (gc : GeneratedCode) (cand : VisualizationCandidate),
       validateV v gc cand none =
         validateWithScores v gc (ruleAlignmentAggregate gc cand)
           (ruleEducationalAggregate v gc)) :=
  ⟨validateV_judge_some, validateV_judge_none⟩

/-- C9 witness: concrete judge scores replacing the heuristics, and the
judge-unavailable case falling back to the heuristics. -/
theorem c9_judge_replaces_witness :
    validateV {} gcW candW (some (9/10, 4/5)) =
      validateWithScores {} gcW (9/10) (4/5) ∧
    validateV {} gcW candW none =
      validateWithScores {} gcW (ruleAlignmentAggregate gcW candW)
        (ruleEducationalAggregate {} gcW) :=
  ⟨c9_judge_replaces.1 {} gcW candW (9/10) (4/5) rfl (by decide),
   c9_judge_replaces.2 {} gcW candW⟩

/-- C10.  The reported score fields are always clamped into `[0, 1]` (first
conjunct), but the threshold comparison uses the unclamped judge scores:
judge scores above `1.0` pass both thresholds (no threshold issue is
appended) while being reported as exactly `1` (second conjunct), and a
negative judge alignment score is reported as `0` yet compared as negative,
so the below-threshold issue is appended (third conjunct). -/
theorem c10_clamped_report_unclamped_compare :
    (∀ (v : ValidatorConfig) (gc : GeneratedCode) (cand : VisualizationCandidate)
       (j : Option (ℚ × ℚ)),
       0 ≤ (validateV v gc cand j).score_alignment ∧
       (validateV v gc cand j).score_alignment ≤ 1 ∧
       0 ≤ (validateV v gc cand j).score_educational ∧
       (validateV v gc cand j).score_educational ≤ 1) ∧
    (∀ (v : ValidatorConfig) (gc : GeneratedCode) (cand : VisualizationCandidate)
       (a e : ℚ), v.useLlmJudge = true → gc.narration_lines ≠ [] →
       1 < a → 1 < e → v.alignmentThreshold ≤ 1 → v.educationalThreshold ≤ 1 →
       (validateV v gc cand (some (a, e))).score_alignment = 1 ∧
       (validateV v gc cand (some (a, e))).score_educational = 1 ∧
       (∀ x y : ℚ,
         VIssue.alignmentBelow x y ∉ (validateV v gc cand (some (a, e))).issues_found) ∧
       (∀ x y : ℚ,
         VIssue.educationalBelow x y ∉ (validateV v gc cand (some (a, e))).issues_found)) ∧
    (∀ (v : ValidatorConfig) (gc : GeneratedCode) (cand : VisualizationCandidate)
       (a e : ℚ), v.useLlmJudge = true → gc.narration_lines ≠ [] →
       a < 0 → 0 ≤ v.alignmentThreshold →
       (validateV v gc cand (some (a, e))).score_alignment = 0 ∧
       VIssue.alignmentBelow a v.alignmentThreshold ∈
         (validateV v gc cand (some (a, e))).issues_found) := by
  refine ⟨?_, ?_, ?_⟩
  · intro v gc cand j
    exact ⟨clampQ_nonneg _, clampQ_le_one _, clampQ_nonneg _, clampQ_le_one _⟩
  · intro v gc cand a e hj hn ha he hta hte
    rw [validateV_judge_some v gc cand a e hj hn]
    have hnlta : ¬(a < v.alignmentThreshold) := not_lt.mpr (le_of_lt (lt_of_le_of_lt hta ha))
    have hnlte : ¬(e < v.educationalThreshold) := not_lt.mpr (le_of_lt (lt_of_le_of_lt hte he))
    refine ⟨?_, ?_, ?_, ?_⟩
    · exact clampQ_of_one_le (le_of_lt ha)
    · exact clampQ_of_one_le (le_of_lt he)
    · intro x y hmem
      simp only [validateWithScores, if_neg hnlta, if_neg hnlte, List.append_nil,
        List.mem_append] at hmem
      rcases hmem with hmem | hmem
      · exact alignmentBelow_not_structural x y gc.code hmem
      · exact alignmentBelow_not_banned x y gc.narration_lines hmem
    · intro x y hmem
      simp only [validateWithScores, if_neg hnlta, if_neg hnlte, List.append_nil,
        List.mem_append] at hmem
      rcases hmem with hmem | hmem
      · exact educationalBelow_not_structural x y gc.code hmem
      · exact educationalBelow_not_banned x y gc.narration_lines hmem
  · intro v gc cand a e hj hn ha hta
    rw [validateV_judge_some v gc cand a e hj hn]
    have hlta : a < v.alignmentThreshold := lt_of_lt_of_le ha hta
    refine ⟨clampQ_of_neg ha, ?_⟩
    simp only [validateWithScores, if_pos hlta]
    simp [List.mem_append]

/-- C10 witness: an out-of-range judge pair `(3/2, −1/2)` on a concrete
code/candidate. -/
theorem c10_clamped_report_unclamped_compare_witness :
    (0 ≤ (validateV {} gcW candW (some (3/2, 2))).score_alignment ∧
      (validateV {} gcW candW (some (3/2, 2))).score_alignment ≤ 1 ∧
      0 ≤ (validateV {} gcW candW (some (3/2, 2))).score_educational ∧
      (validateV {} gcW candW (some (3/2, 2))).score_educational ≤ 1) ∧
    ((validateV {} gcW candW (some (3/2, 2))).score_alignment = 1 ∧
      (validateV {} gcW candW (some (3/2, 2))).score_educational = 1) ∧
    ((validateV {} gcW candW (some (-1/2, 2))).score_alignment = 0 ∧
      VIssue.alignmentBelow (-1/2) (ValidatorConfig.alignmentThreshold {}) ∈
        (validateV {} gcW candW (some (-1/2, 2))).issues_found) := by
  have h2 := c10_clamped_report_unclamped_compare.2.1 {} gcW candW (3/2) 2 rfl
    (by decide) (by norm_num) (by norm_num) (by norm_num) (by norm_num)
  have h3 := c10_clamped_report_unclamped_compare.2.2 {} gcW candW (-1/2) 2 rfl
    (by decide) (by norm_num) (by norm_num)
  exact ⟨c10_clamped_report_unclamped_compare.1 {} gcW candW (some (3/2, 2)),
    ⟨h2.1, h2.2.1⟩, h3⟩

end ArxiVisual


